import Mathlib

/-!
AsioBased_MysqlClient: connection pool, connection state machine, transaction
and result set.

A shallow embedding of `include/mysql_connection_pool.hpp`,
`include/mysql_connection.hpp`, `include/mysql_transaction.hpp` and
`include/mysql_result.hpp`.

Conventions of the embedding

* A `MysqlConnectionPtr` is a connection identity (`ConnId`); the three
  `std::unordered_set`s of the pool are `Finset ConnId`.
* A `std::function` callback is opaque to the pool and to the connection: it is
  a tag (`Nat`), and `none` is the empty `std::function` (`nullptr`).
* Every operation returns the new state together with the list of things it did
  to the outside world (calls on a connection, callback invocations, tasks
  posted to the reactor), in program order.
* The pool and the connection are alive when their callbacks run: every
  `weak_ptr::lock()` of the source succeeds. Each function is one critical
  section or one reactor task of the source, so whatever the source defers with
  `asio::post` is a function of its own.
* The driver is a script of the values its calls end with; a start/cont loop is
  the value it ends with.
* A transaction lives in a world of its own (`TransWorld`): the transaction, the
  connection it is bound to, the reactor's queue of posted tasks (first in,
  first out, one reactor thread) and who holds a `shared_ptr` to the
  transaction. The lambdas of the source are constructors that say what they
  captured; the destructor runs at the moment the last reference goes away.
* Column names and cells of a result are byte strings (`List Nat`).
* A call that fails an `assert` of the source gives `Checked.assert_failed`; a
  call that runs into undefined behaviour gives an outcome of its own
  (`CloseAllOutcome.undefined_behaviour`).
-/

namespace db

/-! ## Data model -/

/-- Identity of a connection object (`MysqlConnectionPtr`). -/
abbrev ConnId := Nat

/-- Source `ResultPtrCallback`: an opaque callback tag, `none` for an empty function. -/
abbrev ResultPtrCallback := Option Nat

/-- Source `ExceptPtrCallback`: an opaque callback tag, `none` for an empty function. -/
abbrev ExceptPtrCallback := Option Nat

/-- Source `TransactionPtrCallback`: an opaque callback tag, `none` for an empty function. -/
abbrev TransactionPtrCallback := Option Nat

/-- Source `enum class ConnectStatus` of mysql_connection.hpp. -/
inductive ConnectStatus where
  | None
  | Connecting
  | SettingCharacterSet
  | Ok
  | Bad
  deriving DecidableEq, Repr

/-- Source `struct SqlCmd` of mysql_connection.hpp. -/
structure SqlCmd where
  sql_ : String
  result_callback_ : ResultPtrCallback
  exception_callback_ : ExceptPtrCallback
  deriving DecidableEq, Repr

/-- Source `constexpr int max_sql_buffer = 200000;` -/
def max_sql_buffer : Nat := 200000

/-- What a pool operation does outside the pool's own fields. -/
inductive Effect where
  /-- Call `conn_ptr->handle_connect()` on a connection made by `create_connection`. -/
  | handle_connect (c : ConnId)
  /-- Call `conn->execute_sql(sql, result_callback, except_callback)`. -/
  | execute_sql (c : ConnId) (sql : String) (rcb : ResultPtrCallback) (ecb : ExceptPtrCallback)
  /-- Call `begin_trans(conn, callback)`. -/
  | begin_trans (c : ConnId) (cb : TransactionPtrCallback)
  /-- Call `conn->handle_close()`. -/
  | handle_close (c : ConnId)
  /-- Call `conn->set_complete_callback(...)` rebinding completion to `handle_new_task`. -/
  | set_complete_callback (c : ConnId)
  /-- Call `asio::post` of the second half of the release callback of `begin_trans`. -/
  | post_release (c : ConnId)
  deriving DecidableEq, Repr

/-- An effect that hands work to a connection. -/
def Effect.isDispatch : Effect → Bool
  | .execute_sql _ _ _ _ => true
  | .begin_trans _ _ => true
  | _ => false

/-- The fields of `class MysqlConnectionPool`. -/
structure MysqlConnectionPool where
  min_size_ : Nat
  max_size_ : Nat
  connections_ : Finset ConnId
  ready_connections_ : Finset ConnId
  busy_connections_ : Finset ConnId
  sqlCmd_buffer_ : List SqlCmd
  trans_callbacks_ : List TransactionPtrCallback
  is_busy_ : Bool
  deriving DecidableEq

/-- The constructor `MysqlConnectionPool(io, min_size, max_size, conn_info)`. -/
def MysqlConnectionPool.mk0 (min_size max_size : Nat) : MysqlConnectionPool :=
  { min_size_ := min_size, max_size_ := max_size,
    connections_ := ∅, ready_connections_ := ∅, busy_connections_ := ∅,
    sqlCmd_buffer_ := [], trans_callbacks_ := [], is_busy_ := false }

/-- Source `*s.begin()` of an unordered set: some element of a non-empty set (here the
least identity), `none` when `s.empty()`. -/
def begin? (s : Finset ConnId) : Option ConnId :=
  if h : s.Nonempty then some (s.min' h) else none

/-! ## Pool operations -/

/-- The object `std::make_shared<MysqlConnection>` returns: distinct from every
connection the pool's sets keep alive. -/
def freshConn (p : MysqlConnectionPool) : ConnId :=
  (p.connections_ ∪ p.ready_connections_ ∪ p.busy_connections_).sup id + 1

/-- Source `MysqlConnectionPool::create_connection`: a new connection with its three
callbacks installed, on which `handle_connect()` is called. -/
def create_connection (p : MysqlConnectionPool) : ConnId × List Effect :=
  (freshConn p, [Effect.handle_connect (freshConn p)])

/-- The closed callback installed by `create_connection`. -/
def closed_callback (p : MysqlConnectionPool) (close_ptr : ConnId) : MysqlConnectionPool :=
  { p with
    ready_connections_ := p.ready_connections_.erase close_ptr,
    busy_connections_ := p.busy_connections_.erase close_ptr,
    connections_ := p.connections_.erase close_ptr }

/-- Source `MysqlConnectionPool::handle_new_task`. -/
def handle_new_task (p : MysqlConnectionPool) (conn : ConnId) :
    MysqlConnectionPool × List Effect :=
  match p.sqlCmd_buffer_ with
  | sql_cmd :: rest =>
    ({ p with sqlCmd_buffer_ := rest },
      [Effect.execute_sql conn sql_cmd.sql_ sql_cmd.result_callback_ sql_cmd.exception_callback_])
  | [] =>
    match p.trans_callbacks_ with
    | trans_callback :: rest =>
      match trans_callback with
      | some cb => ({ p with trans_callbacks_ := rest }, [Effect.begin_trans conn (some cb)])
      | none => ({ p with trans_callbacks_ := rest }, [])
    | [] =>
      if p.connections_.card > p.min_size_ then
        (closed_callback p conn, [Effect.handle_close conn])
      else
        ({ p with
            ready_connections_ := insert conn p.ready_connections_,
            busy_connections_ := p.busy_connections_.erase conn }, [])

/-- The connected callback installed by `create_connection`. -/
def connected_callback (p : MysqlConnectionPool) (create_ptr : ConnId) :
    MysqlConnectionPool × List Effect :=
  handle_new_task { p with busy_connections_ := insert create_ptr p.busy_connections_ } create_ptr

/-- The complete callback installed by `create_connection`. -/
def complete_callback (p : MysqlConnectionPool) (conn_ptr : ConnId) :
    MysqlConnectionPool × List Effect :=
  handle_new_task p conn_ptr

/-- The loop of `MysqlConnectionPool::init`, with `n` iterations left. -/
def init_loop : Nat → MysqlConnectionPool → MysqlConnectionPool × List Effect
  | 0, p => (p, [])
  | n + 1, p =>
    let r := init_loop n { p with connections_ := insert (create_connection p).1 p.connections_ }
    (r.1, (create_connection p).2 ++ r.2)

/-- Source `MysqlConnectionPool::init`. -/
def init (p : MysqlConnectionPool) : MysqlConnectionPool × List Effect :=
  init_loop p.min_size_ p

/-- How a call of `close_all` ends: it returns, with the pool it leaves and what
it did; or its loop advances an iterator that has been invalidated, which is
undefined behaviour, with the pool and what it did up to that point. -/
inductive CloseAllOutcome where
  | returned (p : MysqlConnectionPool) (effects : List Effect)
  | undefined_behaviour (p : MysqlConnectionPool) (effects : List Effect)
  deriving DecidableEq

/-- Source `MysqlConnectionPool::close_all`. The range-for runs over
`connections_` itself. In its first pass `conn->handle_close()` calls the closed
callback installed by `create_connection`, which erases `conn` from
`connections_`: the iterator of the loop then points to an erased element, and
advancing it is undefined behaviour. With `connections_` empty no pass runs and
the three sets are cleared. -/
def close_all (p : MysqlConnectionPool) : CloseAllOutcome :=
  match begin? p.connections_ with
  | some conn =>
    CloseAllOutcome.undefined_behaviour (closed_callback p conn) [Effect.handle_close conn]
  | none =>
    CloseAllOutcome.returned
      { p with connections_ := ∅, busy_connections_ := ∅, ready_connections_ := ∅ } []

/-- The public `MysqlConnectionPool::execute_sql(sql, result_callback, except_callback)`. -/
def execute_sql (p : MysqlConnectionPool) (sql : String)
    (result_callback : ResultPtrCallback) (except_callback : ExceptPtrCallback) :
    MysqlConnectionPool × List Effect :=
  match begin? p.ready_connections_ with
  | none =>
    if p.sqlCmd_buffer_.length > max_sql_buffer then
      ({ p with is_busy_ := true }, [])
    else
      let p1 := { p with
        sqlCmd_buffer_ := p.sqlCmd_buffer_ ++ [SqlCmd.mk sql result_callback except_callback] }
      if p1.connections_.card < p1.max_size_ then
        ({ p1 with connections_ := insert (create_connection p1).1 p1.connections_ },
          (create_connection p1).2)
      else
        (p1, [])
  | some conn =>
    ({ p with
        busy_connections_ := insert conn p.busy_connections_,
        ready_connections_ := p.ready_connections_.erase conn },
      [Effect.execute_sql conn sql result_callback except_callback])

/-- Source `MysqlConnectionPool::new_transaction_async(callback)`. -/
def new_transaction_async (p : MysqlConnectionPool) (callback : TransactionPtrCallback) :
    MysqlConnectionPool × List Effect :=
  match begin? p.ready_connections_ with
  | some conn_ptr =>
    ({ p with
        busy_connections_ := insert conn_ptr p.busy_connections_,
        ready_connections_ := p.ready_connections_.erase conn_ptr },
      [Effect.begin_trans conn_ptr callback])
  | none =>
    ({ p with trans_callbacks_ := p.trans_callbacks_ ++ [callback] }, [])

/-- The release (`usedup`) callback that `begin_trans` gives the transaction
bound to `conn`; `status` is `conn->status()` when it runs. It only checks and
posts: the rest runs later as `release_task`. -/
def release_callback (p : MysqlConnectionPool) (conn : ConnId) (status : ConnectStatus) :
    MysqlConnectionPool × List Effect :=
  if status = ConnectStatus.Bad then (p, [])
  else if conn ∉ p.connections_ then (p, [])
  else (p, [Effect.post_release conn])

/-- The task the release callback posts to the reactor: rebind the complete
callback of `conn` and call `handle_new_task(conn)`. -/
def release_task (p : MysqlConnectionPool) (conn : ConnId) :
    MysqlConnectionPool × List Effect :=
  ((handle_new_task p conn).1, Effect.set_complete_callback conn :: (handle_new_task p conn).2)

/-! ## Pool events -/

/-- The ways the pool is entered by calls that return: its public calls
`execute_sql` and `new_transaction_async`, the callbacks it installs on its
connections, and the two halves of the release callback of a transaction.
(`close_all` is not among them: it returns only on a pool without connections,
see `close_all`.) -/
inductive PoolEvent where
  | execute_sql (sql : String) (rcb : ResultPtrCallback) (ecb : ExceptPtrCallback)
  | new_transaction_async (cb : TransactionPtrCallback)
  | connected (c : ConnId)
  | completed (c : ConnId)
  | closed (c : ConnId)
  | release (c : ConnId) (status : ConnectStatus)
  | release_task (c : ConnId)
  deriving DecidableEq, Repr

/-- The pool after one event. -/
def PoolEvent.apply (p : MysqlConnectionPool) : PoolEvent → MysqlConnectionPool
  | .execute_sql sql rcb ecb => (db.execute_sql p sql rcb ecb).1
  | .new_transaction_async cb => (db.new_transaction_async p cb).1
  | .connected c => (connected_callback p c).1
  | .completed c => (complete_callback p c).1
  | .closed c => closed_callback p c
  | .release c status => (release_callback p c status).1
  | .release_task c => (db.release_task p c).1

/-- The pool after a sequence of events, oldest first. -/
def run_events (p : MysqlConnectionPool) (evs : List PoolEvent) : MysqlConnectionPool :=
  evs.foldl PoolEvent.apply p

/-- The relation between the three sets of the pool: idle and busy are disjoint
and both lie inside the population. -/
def SetsInvariant (p : MysqlConnectionPool) : Prop :=
  Disjoint p.ready_connections_ p.busy_connections_ ∧
  p.ready_connections_ ⊆ p.connections_ ∧
  p.busy_connections_ ⊆ p.connections_

/-- The condition under which an event reaches `handle_new_task` with a member
of the population: the connected callback comes from a connection of
`connections_` that is not idle, the complete callback and the posted release
task from a connection of `connections_`. -/
def PoolEvent.onMember (p : MysqlConnectionPool) : PoolEvent → Prop
  | .connected c => c ∈ p.connections_ ∧ c ∉ p.ready_connections_
  | .completed c => c ∈ p.connections_
  | .release_task c => c ∈ p.connections_
  | _ => True

/-- Every event of the sequence satisfies `onMember` in the state it arrives in. -/
def AllOnMember : MysqlConnectionPool → List PoolEvent → Prop
  | _, [] => True
  | p, ev :: rest => ev.onMember p ∧ AllOnMember (ev.apply p) rest

instance (p : MysqlConnectionPool) : Decidable (SetsInvariant p) := by
  unfold SetsInvariant
  infer_instance

/-- Submitting the statements of `cmds` to the pool one after the other, with
nothing else happening in between. -/
def submit_all (p : MysqlConnectionPool) (cmds : List SqlCmd) : MysqlConnectionPool :=
  cmds.foldl
    (fun q cmd => (execute_sql q cmd.sql_ cmd.result_callback_ cmd.exception_callback_).1) p


/-! ## Inputs used in the concrete evaluations -/

/-- A pool of one connection, which is busy: nothing is idle, nothing is queued. -/
def all_busy_pool : MysqlConnectionPool :=
  { MysqlConnectionPool.mk0 1 1 with connections_ := {1}, busy_connections_ := {1} }

/-- The `i`-th of a series of statements, with its own two callbacks. -/
def nth_cmd (i : Nat) : SqlCmd :=
  { sql_ := "select sleep(1)", result_callback_ := some (2 * i),
    exception_callback_ := some (2 * i + 1) }

/-- The pool `all_busy_pool` with 200,001 statements already queued. -/
def overloaded_pool : MysqlConnectionPool :=
  { all_busy_pool with sqlCmd_buffer_ := (List.range 200001).map nth_cmd }


/-- A freshly constructed pool with `min_size = max_size = 1`, after `init`. -/
def race_start : MysqlConnectionPool := (init (MysqlConnectionPool.mk0 1 1)).1

/-- The pool `race_start` after its connection has connected and has then been
handed to a transaction request. -/
def race_in_transaction : MysqlConnectionPool :=
  run_events race_start [PoolEvent.connected 1, PoolEvent.new_transaction_async (some 7)]

/-- What the pool sees when BEGIN of that transaction fails after the requester
has let go of the transaction: inside `handle_error` the error callback of BEGIN
is cleared, which destroys the transaction, and its destructor calls the release
callback (`conn->status()` is `Ok`); then `handle_error` calls `handle_close`,
which runs the closed callback; then the reactor runs the task the release
callback has posted. -/
def race_tail : List PoolEvent :=
  [PoolEvent.release 1 ConnectStatus.Ok, PoolEvent.closed 1, PoolEvent.release_task 1]

/-- Source `enum class ExecStatus` of `MysqlConnection`. -/
inductive ExecStatus where
  | None
  | RealQuery
  | StoreResult
  | NextResult
  deriving DecidableEq, Repr

/-- The fields of `class MysqlConnection` that its control flow reads or writes;
`character_set` is `conn_info_.character_set`. -/
structure MysqlConnection where
  is_working_ : Bool
  character_set : String
  conn_status_ : ConnectStatus
  exec_status_ : ExecStatus
  sql_ : String
  result_callback_ : ResultPtrCallback
  ec_callback_ : ExceptPtrCallback
  connected_callback_ : Option Nat
  closed_callback_ : Option Nat
  complete_callback_ : Option Nat
  deriving DecidableEq, Repr

/-- A callback invocation made by a connection. `result_callback` carries what
the `MysqlResult` handed over is built from; `complete_callback` carries the
connection as it is at the moment of the call. -/
inductive ConnEvent where
  | result_callback (cb : Nat) (result : Option Nat) (affected_rows insert_id : Nat)
  | ec_callback (cb : Nat)
  | complete_callback (cb : Nat) (self : MysqlConnection)
  | connected_callback (cb : Nat)
  | closed_callback (cb : Nat)
  deriving DecidableEq, Repr

/-- An invocation of a result callback. -/
def ConnEvent.isResult : ConnEvent → Bool
  | .result_callback _ _ _ _ => true
  | _ => false

/-- An invocation of an error callback. -/
def ConnEvent.isError : ConnEvent → Bool
  | .ec_callback _ => true
  | _ => false

/-- In the trace `ev` no result callback is invoked after an error callback. -/
def NoResultAfterError (ev : List ConnEvent) : Prop :=
  ∀ (l1 l2 : List ConnEvent) (cb : Nat),
    ev = l1 ++ ConnEvent.ec_callback cb :: l2 → ∀ e ∈ l2, e.isResult = false

/-- An invocation of a complete callback. -/
def ConnEvent.isComplete : ConnEvent → Bool
  | .complete_callback _ _ => true
  | _ => false

/-- The tag of the do-nothing lambda the constructor installs as connected and
closed callback. -/
def noop_callback : Nat := 0

/-- The constructor `MysqlConnection(io_context, conn_info)`. -/
def MysqlConnection.mk0 (character_set : String) : MysqlConnection :=
  { is_working_ := false, character_set := character_set,
    conn_status_ := ConnectStatus.None, exec_status_ := ExecStatus.None, sql_ := "",
    result_callback_ := none, ec_callback_ := none,
    connected_callback_ := some noop_callback, closed_callback_ := some noop_callback,
    complete_callback_ := none }

/-- Source `MysqlConnection::execute_sql`: store the statement and its callbacks, set
`is_working_`; the posted task then spawns `async_execute`. -/
def MysqlConnection.execute_sql (c : MysqlConnection) (sql : String)
    (result_callback : ResultPtrCallback) (ec_callback : ExceptPtrCallback) : MysqlConnection :=
  { c with
    result_callback_ := result_callback, ec_callback_ := ec_callback, sql_ := sql,
    is_working_ := true }

/-- Source `MysqlConnection::handle_close`. -/
def MysqlConnection.handle_close (c : MysqlConnection) : List ConnEvent :=
  match c.closed_callback_ with
  | some cb => [ConnEvent.closed_callback cb]
  | none => []

/-- Source `MysqlConnection::handle_error`. -/
def MysqlConnection.handle_error (c : MysqlConnection) : MysqlConnection × List ConnEvent :=
  let c1 := { c with exec_status_ := ExecStatus.None }
  if c1.is_working_ then
    let c2 := { c1 with ec_callback_ := none, result_callback_ := none, is_working_ := false }
    (c2,
      (match c1.ec_callback_ with
        | some cb => [ConnEvent.ec_callback cb]
        | none => []) ++ c2.handle_close)
  else
    (c1, [])

/-- What the driver reports during one pass of the `for (;;)` loop of
`async_execute`, each value taken once the start/cont loop of its call is done. -/
structure StoreOutcome where
  /-- Value of `result` after `mysql_store_result`; `none` is `NULL`. -/
  result : Option Nat
  /-- Value of `mysql_errno(mysql_ptr_.get())` after `mysql_store_result`. -/
  mysql_errno : Nat
  affected_rows : Nat
  insert_id : Nat
  /-- Value of `mysql_more_results(mysql_ptr_.get())`. -/
  more_results : Bool
  /-- Value of `err` after `mysql_next_result`; read only when `more_results`. -/
  next_result_err : Int
  deriving DecidableEq, Repr

/-- What the driver reports for one statement: `err` after `mysql_real_query`,
then one `StoreOutcome` for each pass of the loop it has answered so far. -/
structure QueryScript where
  real_query_err : Int
  sets : List StoreOutcome
  deriving DecidableEq, Repr

/-- Source `if (result_callback_) result_callback_(query_result_ptr);` for the result
set `s`. -/
def MysqlConnection.call_result_callback (c : MysqlConnection) (s : StoreOutcome) :
    List ConnEvent :=
  match c.result_callback_ with
  | some cb => [ConnEvent.result_callback cb s.result s.affected_rows s.insert_id]
  | none => []

/-- Source `if (complete_callback_) complete_callback_();` -/
def MysqlConnection.call_complete_callback (c : MysqlConnection) : List ConnEvent :=
  match c.complete_callback_ with
  | some cb => [ConnEvent.complete_callback cb c]
  | none => []

/-- The `for (;;)` loop of `async_execute`. When the driver has answered no
further pass the coroutine stays suspended in `mysql_store_result`. -/
def MysqlConnection.store_loop (c : MysqlConnection) :
    List StoreOutcome → MysqlConnection × List ConnEvent
  | [] => ({ c with exec_status_ := ExecStatus.StoreResult }, [])
  | s :: rest =>
    let c1 := { c with exec_status_ := ExecStatus.StoreResult }
    if s.result = none ∧ s.mysql_errno ≠ 0 then
      c1.handle_error
    else
      let ev := c1.call_result_callback s
      if s.more_results = false then
        let c2 := { c1 with ec_callback_ := none, result_callback_ := none, is_working_ := false }
        (c2, ev ++ c2.call_complete_callback)
      else
        let c2 := { c1 with exec_status_ := ExecStatus.NextResult }
        if s.next_result_err ≠ 0 then
          (c2.handle_error.1, ev ++ c2.handle_error.2)
        else
          ((store_loop c2 rest).1, ev ++ (store_loop c2 rest).2)

/-- Source `MysqlConnection::async_execute`. -/
def MysqlConnection.async_execute (c : MysqlConnection) (o : QueryScript) :
    MysqlConnection × List ConnEvent :=
  let c1 := { c with exec_status_ := ExecStatus.RealQuery }
  if o.real_query_err ≠ 0 then c1.handle_error else c1.store_loop o.sets

/-- What the driver and the C library report during `async_connect`. -/
structure ConnectScript where
  /-- Value of `mysql_get_socket(mysql_ptr_.get())`. -/
  fd : Int
  /-- Whether `ret` is non-null once `mysql_real_connect` is done. -/
  ret : Bool
  /-- The C library `errno` at the test `!ret && errno`. -/
  c_errno : Int
  /-- Value of `err` after `mysql_set_character_set`. -/
  set_character_set_err : Int
  deriving DecidableEq, Repr

/-- The end of `async_connect` when no phase has failed: `conn_status_` is set
to `Ok`, the connected callback is invoked and `true` is returned. -/
def MysqlConnection.connect_done (c : MysqlConnection) :
    MysqlConnection × List ConnEvent × Bool :=
  let c2 := { c with conn_status_ := ConnectStatus.Ok }
  (c2,
    (match c2.connected_callback_ with
      | some cb => [ConnEvent.connected_callback cb]
      | none => []), true)

/-- Source `MysqlConnection::async_connect`: the connection, the callbacks invoked and
the value returned; `none` when the process ends in `exit(1)`. -/
def MysqlConnection.async_connect (c : MysqlConnection) (o : ConnectScript) :
    Option (MysqlConnection × List ConnEvent × Bool) :=
  let c1 := { c with conn_status_ := ConnectStatus.Connecting }
  if o.fd < 0 then none
  else if o.ret = false ∧ o.c_errno ≠ 0 then
    some (c1.handle_error.1, c1.handle_error.2, false)
  else if c1.character_set ≠ "" then
    if o.set_character_set_err ≠ 0 then
      some (c1.handle_error.1, c1.handle_error.2, false)
    else
      some c1.connect_done
  else
    some c1.connect_done

/-- A statement whose execution, as reported by the driver, runs into an error:
`mysql_real_query` fails, or a pass of the loop that is reached fails in
`mysql_store_result` or in `mysql_next_result`. -/
def sets_fail : List StoreOutcome → Bool
  | [] => false
  | s :: rest =>
    if s.result = none ∧ s.mysql_errno ≠ 0 then true
    else if s.more_results = false then false
    else if s.next_result_err ≠ 0 then true
    else sets_fail rest

/-- See `sets_fail`. -/
def QueryScript.fails (o : QueryScript) : Bool :=
  if o.real_query_err ≠ 0 then true else sets_fail o.sets

/-- A statement whose execution, as reported by the driver, reaches its last
result set with no error on the way. -/
def sets_complete : List StoreOutcome → Bool
  | [] => false
  | s :: rest =>
    if s.result = none ∧ s.mysql_errno ≠ 0 then false
    else if s.more_results = false then true
    else if s.next_result_err ≠ 0 then false
    else sets_complete rest

/-- See `sets_complete`. -/
def QueryScript.completes (o : QueryScript) : Bool :=
  if o.real_query_err ≠ 0 then false else sets_complete o.sets

/-- The result sets of a statement that the driver stores, as it reports them:
those of the passes of the loop up to the last one, or up to the first pass that
fails (a pass that fails in `mysql_next_result` has stored its result set, a
pass that fails in `mysql_store_result` has not). -/
def sets_stored : List StoreOutcome → List StoreOutcome
  | [] => []
  | s :: rest =>
    if s.result = none ∧ s.mysql_errno ≠ 0 then []
    else if s.more_results = false then [s]
    else if s.next_result_err ≠ 0 then [s]
    else s :: sets_stored rest

/-- See `sets_stored`; nothing is stored when `mysql_real_query` fails. -/
def QueryScript.stored (o : QueryScript) : List StoreOutcome :=
  if o.real_query_err ≠ 0 then [] else sets_stored o.sets

/-- The connection a statement leaves behind when it completes. -/
def MysqlConnection.completed (c : MysqlConnection) : MysqlConnection :=
  { c with
    exec_status_ := ExecStatus.StoreResult, ec_callback_ := none, result_callback_ := none,
    is_working_ := false }

/-- A connection as the pool sets it up in `create_connection`, once connected. -/
def pooled_connection : MysqlConnection :=
  { MysqlConnection.mk0 "" with
    conn_status_ := ConnectStatus.Ok,
    connected_callback_ := some 1, closed_callback_ := some 2, complete_callback_ := some 3 }

/-- A connection as the pool sets it up in `create_connection`, before
`handle_connect()`; `character_set` is `conn_info_.character_set`. -/
def new_connection (character_set : String) : MysqlConnection :=
  { MysqlConnection.mk0 character_set with
    connected_callback_ := some 1, closed_callback_ := some 2, complete_callback_ := some 3 }


/-- A two-statement text whose first result set is stored and whose
`mysql_next_result` then fails. -/
def next_result_fails : QueryScript :=
  { real_query_err := 0,
    sets := [{ result := some 1, mysql_errno := 0, affected_rows := 0, insert_id := 0,
               more_results := true, next_result_err := 1 }] }

/-- A two-statement text with two result sets and no error. -/
def two_result_sets : List StoreOutcome :=
  [{ result := some 1, mysql_errno := 0, affected_rows := 0, insert_id := 0,
     more_results := true, next_result_err := 0 },
   { result := none, mysql_errno := 0, affected_rows := 3, insert_id := 4,
     more_results := false, next_result_err := 0 }]

/-- A connect attempt that fails in the connect phase: `ret` is null and `errno`
is set. -/
def connect_refused : ConnectScript :=
  { fd := 5, ret := false, c_errno := 111, set_character_set_err := 0 }

/-- A connect attempt whose connect phase ends with a null `ret` while the C
library `errno` is zero. -/
def connect_null_errno_zero : ConnectScript :=
  { fd := 5, ret := false, c_errno := 0, set_character_set_err := 0 }

/-- A connect attempt whose connect phase succeeds and whose character-set phase
reports an error. -/
def charset_rejected : ConnectScript :=
  { fd := 5, ret := true, c_errno := 0, set_character_set_err := 1 }

/-- What a function guarded by `assert` gives: the assertion fails (the program
aborts), or a value. -/
inductive Checked (α : Type) where
  | assert_failed
  | ok (value : α)
  deriving DecidableEq, Repr

/-! ## Transaction -/

/-- The text given to the constructor of a `std::runtime_error` and returned by
`what()`: the text `mysql_error(mysql_ptr_.get())` returns, which is left open,
or a text written out. -/
inductive ErrorText where
  | mysql_error
  | literal (text : String)
  deriving DecidableEq, Repr

/-- The exception object an error callback finds behind the `std::exception_ptr`
it receives: a plain `std::exception`, or a `std::runtime_error` with the text
given to its constructor. -/
inductive ExceptionObject where
  | exception
  | runtime_error (what_arg : ErrorText)
  deriving DecidableEq, Repr

/-- Source `e.what()`: the text of a `std::runtime_error`; for a plain
`std::exception` the fixed text of the standard library. -/
def ExceptionObject.what : ExceptionObject → ErrorText
  | .exception => ErrorText.literal "std::exception"
  | .runtime_error what_arg => what_arg

/-- Source `std::exception(e)`: the copy constructor of `std::exception`, applied
to an object of a derived class, makes a plain `std::exception`; the derived
part, with its text, is not copied. -/
def ExceptionObject.to_exception : ExceptionObject → ExceptionObject
  | _ => ExceptionObject.exception

/-- Source `std::exception(std::runtime_error(mysql_error(mysql_ptr_.get())))` of
`MysqlConnection::handle_error`, handed to the error callback. -/
def driver_error : ExceptionObject :=
  (ExceptionObject.runtime_error ErrorText.mysql_error).to_exception

/-- Source `std::exception(std::runtime_error("transaction been rollback"))` of
`MysqlTransaction::execute_sql` and `execute_new_task`, handed to the error
callback. -/
def rolled_back_error : ExceptionObject :=
  (ExceptionObject.runtime_error (ErrorText.literal "transaction been rollback")).to_exception

/-- A callback stored in a buffered command: the caller's own, or the lambda of
`roll_back` that sets `is_commited_rollback`. -/
inductive CmdCallback where
  | user (cb : Nat)
  | mark_finished
  deriving DecidableEq, Repr

/-- Source `struct MysqlTransaction::SqlCmd`. Every buffered command keeps the
transaction alive (through `this_ptr_`, or through its captured `thisPtr`). -/
structure TransSqlCmd where
  sql_ : String
  result_callback_ : Option CmdCallback
  ec_callback_ : Option CmdCallback
  is_rollback_cmd_ : Bool
  deriving DecidableEq, Repr

/-- The result callbacks handed to `conn_ptr_->execute_sql`: the caller's own
(`execute_sql`), the empty lambda of `do_begin`, the lambda of `roll_back`, the
wrapper of `execute_new_task` around a buffered command, and the lambda of the
destructor around the commit callback. -/
inductive TransResultCallback where
  | user (cb : Nat)
  | begin
  | rollback
  | buffered (cmd : TransSqlCmd)
  | commit (commitCb : Option Nat)
  deriving DecidableEq, Repr

/-- The error callbacks handed to `conn_ptr_->execute_sql`: the wrapper of
`execute_sql` around the caller's, the lambdas of `do_begin` and `roll_back`,
the wrapper of `execute_new_task`, and the lambda of the destructor. -/
inductive TransExceptCallback where
  | direct (ecb : ExceptPtrCallback)
  | begin
  | rollback
  | buffered (cmd : TransSqlCmd)
  | commit (commitCb : Option Nat)
  deriving DecidableEq, Repr

/-- The complete callbacks a bound connection can carry: the pool's
(`handle_new_task`), the one of `do_begin` (a weak reference to the transaction,
calling `execute_new_task`), and the one of the destructor (calling the release
callback it moved out of the transaction). -/
inductive CompleteCallback where
  | pool
  | transaction
  | released (ucb : Option Nat)
  deriving DecidableEq, Repr

/-- The tasks given to `asio::post`: the lambdas of `do_begin`, of `begin_trans`
(delivery of the transaction to the requester), of `roll_back`, of the
destructor, and of `MysqlConnection::execute_sql` (spawning `async_execute`). -/
inductive ReactorTask where
  | begin
  | deliver (cb : Nat)
  | rollback
  | commit (ucb : Option Nat) (commitCb : Option Nat)
  | async_execute
  deriving DecidableEq, Repr

/-- The `MysqlConnection` a transaction is bound to, with the callbacks it holds
while bound; `running` says that the coroutine `async_execute` has been spawned
and waits for the driver. -/
structure BoundConnection where
  sql_ : String
  is_working_ : Bool
  result_callback_ : Option TransResultCallback
  ec_callback_ : Option TransExceptCallback
  complete_callback_ : Option CompleteCallback
  running : Bool
  deriving DecidableEq, Repr

/-- What a transaction and its connection do that can be seen from outside, in
program order. `execute_sql` is a call of `conn_ptr_->execute_sql` and carries
the connection's `is_working_` at the call; `deliver` is the call of the
requester's callback with the transaction and carries the transaction's
`is_working_` and the connection's `sql_` and `is_working_` at the call. -/
inductive TransEvent where
  | execute_sql (sql : String) (busy : Bool)
  | result_callback (cb : Nat)
  | ec_callback (cb : Nat) (err : ExceptionObject)
  | bad_function_call
  | commit_callback (cb : Nat) (ok : Bool)
  | usedup_callback (cb : Nat)
  | closed_callback
  | pool_complete
  | destructor
  | deliver (cb : Nat) (trans_is_working : Bool) (conn_sql : String) (conn_is_working : Bool)
  deriving DecidableEq, Repr

/-- The fields of `class MysqlTransaction`. -/
structure MysqlTransaction where
  sqlCmdBuffer_ : List TransSqlCmd
  is_commited_rollback : Bool
  is_working_ : Bool
  commit_callback_ : Option Nat
  usedup_callback_ : Option Nat
  deriving DecidableEq, Repr

/-- A transaction with its bound connection, the reactor's queue of posted
tasks (oldest first), whether the requester still holds a `MysqlTransactionPtr`,
whether the destructor has run, and what has happened so far. -/
structure TransWorld where
  trans : MysqlTransaction
  destroyed : Bool
  client_holds : Bool
  conn : BoundConnection
  posted : List ReactorTask
  log : List TransEvent
  deriving DecidableEq, Repr

/-- A result callback whose lambda captures a `shared_ptr` to the transaction. -/
def TransResultCallback.holds : TransResultCallback → Bool
  | .rollback => true
  | .buffered _ => true
  | _ => false

/-- An error callback whose lambda captures a `shared_ptr` to the transaction. -/
def TransExceptCallback.holds : TransExceptCallback → Bool
  | .commit _ => false
  | _ => true

/-- A posted task whose lambda captures a `shared_ptr` to the transaction. -/
def ReactorTask.holds : ReactorTask → Bool
  | .begin => true
  | .deliver _ => true
  | .rollback => true
  | _ => false

/-- Whether some `shared_ptr` to the transaction is left: the requester's, a
buffered command's, one captured by a callback installed on the connection, or
one captured by a posted task. -/
def TransWorld.referenced (w : TransWorld) : Bool :=
  w.client_holds || !w.trans.sqlCmdBuffer_.isEmpty ||
  (match w.conn.result_callback_ with
    | some cb => cb.holds
    | none => false) ||
  (match w.conn.ec_callback_ with
    | some cb => cb.holds
    | none => false) ||
  w.posted.any ReactorTask.holds

/-- Source `MysqlConnection::execute_sql` on the bound connection. -/
def TransWorld.conn_execute_sql (w : TransWorld) (sql : String)
    (result_callback : Option TransResultCallback)
    (ec_callback : Option TransExceptCallback) : TransWorld :=
  { w with
    conn := { w.conn with
      result_callback_ := result_callback, ec_callback_ := ec_callback, sql_ := sql,
      is_working_ := true },
    posted := w.posted ++ [ReactorTask.async_execute],
    log := w.log ++ [TransEvent.execute_sql sql w.conn.is_working_] }

/-- Source `MysqlTransaction::~MysqlTransaction`. Its assertion that the buffer is
empty holds whenever the last reference goes away, see `referenced`. -/
def TransWorld.destructor (w : TransWorld) : TransWorld :=
  if w.trans.is_commited_rollback = false then
    { w with
      destroyed := true,
      trans := { w.trans with usedup_callback_ := none, commit_callback_ := none },
      posted := w.posted ++ [ReactorTask.commit w.trans.usedup_callback_ w.trans.commit_callback_],
      log := w.log ++ [TransEvent.destructor] }
  else
    match w.trans.usedup_callback_ with
    | some cb =>
      { w with destroyed := true,
               log := w.log ++ [TransEvent.destructor, TransEvent.usedup_callback cb] }
    | none => { w with destroyed := true, log := w.log ++ [TransEvent.destructor] }

/-- The end of the last `shared_ptr`: the destructor runs as soon as nothing
references the transaction. -/
def TransWorld.collect (w : TransWorld) : TransWorld :=
  if w.destroyed = false ∧ w.referenced = false then w.destructor else w

/-- Source `MysqlTransaction::roll_back`: it only posts its lambda. -/
def TransWorld.roll_back (w : TransWorld) : TransWorld :=
  { w with posted := w.posted ++ [ReactorTask.rollback] }

/-- Source `MysqlTransaction::do_begin`: it only posts its lambda. -/
def TransWorld.do_begin (w : TransWorld) : TransWorld :=
  { w with posted := w.posted ++ [ReactorTask.begin] }

/-- A call of a callback stored in a buffered command, with error `err` when it
is an error callback. -/
def TransWorld.call_cmd_callback (w : TransWorld) (err : Option ExceptionObject) :
    CmdCallback → TransWorld
  | .user cb =>
    match err with
    | some e => { w with log := w.log ++ [TransEvent.ec_callback cb e] }
    | none => { w with log := w.log ++ [TransEvent.result_callback cb] }
  | .mark_finished => { w with trans := { w.trans with is_commited_rollback := true } }

/-- Source `MysqlTransaction::execute_sql`. Calling an empty `ecb` on a finished
transaction throws `std::bad_function_call`. -/
def TransWorld.execute_sql (w : TransWorld) (sql : String) (rcb : ResultPtrCallback)
    (ecb : ExceptPtrCallback) : TransWorld :=
  if w.trans.is_commited_rollback = false then
    if w.trans.is_working_ = false then
      TransWorld.conn_execute_sql { w with trans := { w.trans with is_working_ := true } } sql
        (rcb.map TransResultCallback.user) (some (TransExceptCallback.direct ecb))
    else
      { w with trans := { w.trans with
          sqlCmdBuffer_ := w.trans.sqlCmdBuffer_ ++
            [{ sql_ := sql, result_callback_ := rcb.map CmdCallback.user,
               ec_callback_ := ecb.map CmdCallback.user, is_rollback_cmd_ := false }] } }
  else
    match ecb with
    | some cb => { w with log := w.log ++ [TransEvent.ec_callback cb rolled_back_error] }
    | none => { w with log := w.log ++ [TransEvent.bad_function_call] }

/-- The loop of `execute_new_task` over the buffered commands of a finished
transaction: each error callback that is set is called. -/
def TransWorld.fail_all (w : TransWorld) : List TransSqlCmd → TransWorld
  | [] => w
  | cmd :: rest =>
    match cmd.ec_callback_ with
    | some cb => TransWorld.fail_all (w.call_cmd_callback (some rolled_back_error) cb) rest
    | none => TransWorld.fail_all w rest

/-- Source `MysqlTransaction::execute_new_task`; it starts with
`assert(is_working_)`. -/
def TransWorld.execute_new_task (w : TransWorld) : Checked TransWorld :=
  if w.trans.is_working_ = false then Checked.assert_failed
  else if w.trans.is_commited_rollback = false then
    match w.trans.sqlCmdBuffer_ with
    | cmd :: rest =>
      Checked.ok
        (TransWorld.conn_execute_sql { w with trans := { w.trans with sqlCmdBuffer_ := rest } }
          cmd.sql_ (some (TransResultCallback.buffered cmd))
          (some (TransExceptCallback.buffered cmd)))
    | [] => Checked.ok { w with trans := { w.trans with is_working_ := false } }
  else
    let w1 := { w with trans := { w.trans with is_working_ := false } }
    match w1.trans.sqlCmdBuffer_ with
    | cmd :: rest =>
      let w2 := w1.fail_all (cmd :: rest)
      Checked.ok { w2 with trans := { w2.trans with sqlCmdBuffer_ := [] } }
    | [] =>
      match w1.trans.usedup_callback_ with
      | some cb =>
        Checked.ok
          { w1 with
            trans := { w1.trans with usedup_callback_ := none },
            log := w1.log ++ [TransEvent.usedup_callback cb] }
      | none => Checked.ok w1

/-- A call of the result callback installed on the connection. -/
def TransWorld.call_result_callback (w : TransWorld) : TransResultCallback → TransWorld
  | .user cb => { w with log := w.log ++ [TransEvent.result_callback cb] }
  | .begin => w
  | .rollback => { w with trans := { w.trans with is_commited_rollback := true } }
  | .buffered cmd =>
    let w1 :=
      if cmd.is_rollback_cmd_ then
        { w with trans := { w.trans with is_commited_rollback := true } }
      else w
    match cmd.result_callback_ with
    | some cb => w1.call_cmd_callback none cb
    | none => w1
  | .commit commitCb =>
    match commitCb with
    | some cb => { w with log := w.log ++ [TransEvent.commit_callback cb true] }
    | none => w

/-- A call of the error callback installed on the connection (by `handle_error`,
so with the driver's error). -/
def TransWorld.call_ec_callback (w : TransWorld) : TransExceptCallback → TransWorld
  | .direct ecb =>
    match ecb with
    | some cb =>
      { w.roll_back with
        log := w.roll_back.log ++ [TransEvent.ec_callback cb driver_error] }
    | none => w.roll_back
  | .begin => { w with trans := { w.trans with is_commited_rollback := true } }
  | .rollback => { w with trans := { w.trans with is_commited_rollback := true } }
  | .buffered cmd =>
    let w1 :=
      if cmd.is_rollback_cmd_ = false then w.roll_back
      else { w with trans := { w.trans with is_commited_rollback := true } }
    match cmd.ec_callback_ with
    | some cb => w1.call_cmd_callback (some driver_error) cb
    | none => w1
  | .commit commitCb =>
    match commitCb with
    | some cb => { w with log := w.log ++ [TransEvent.commit_callback cb false] }
    | none => w

/-- A call of the complete callback installed on the connection. The one of
`do_begin` does nothing once the transaction is destroyed. -/
def TransWorld.call_complete_callback (w : TransWorld) :
    CompleteCallback → Checked TransWorld
  | .pool => Checked.ok { w with log := w.log ++ [TransEvent.pool_complete] }
  | .transaction => if w.destroyed then Checked.ok w else w.execute_new_task
  | .released ucb =>
    match ucb with
    | some cb => Checked.ok { w with log := w.log ++ [TransEvent.usedup_callback cb] }
    | none => Checked.ok w

/-- How the statement in flight ends: `completed more` stores `more + 1` result
sets and no driver step fails; `failed stored` stores `stored` result sets and
then a driver step fails. -/
inductive StatementOutcome where
  | completed (more : Nat)
  | failed (stored : Nat)
  deriving DecidableEq, Repr

/-- The result callback called `n` times, as `async_execute` does once for each
stored result set. -/
def TransWorld.call_results (w : TransWorld) : Nat → TransWorld
  | 0 => w
  | n + 1 =>
    TransWorld.call_results
      (match w.conn.result_callback_ with
        | some cb => w.call_result_callback cb
        | none => w) n

/-- The connection clears both statement callbacks; the lambdas are destroyed
and with them the references they captured. -/
def TransWorld.clear_callbacks (w : TransWorld) : TransWorld :=
  TransWorld.collect
    { w with conn := { w.conn with ec_callback_ := none, result_callback_ := none } }

/-- The end of `MysqlConnection::async_execute` on the bound connection. On
completion: the callbacks are cleared, `is_working_` is reset and the complete
callback is called. On failure (`handle_error`): the error callback is called,
the callbacks are cleared, `is_working_` is reset and `handle_close` runs. -/
def TransWorld.finish (w : TransWorld) : StatementOutcome → Checked TransWorld
  | .completed more =>
    let w1 := (w.call_results (more + 1)).clear_callbacks
    let w2 := { w1 with conn := { w1.conn with is_working_ := false, running := false } }
    match w2.conn.complete_callback_ with
    | some cb => w2.call_complete_callback cb
    | none => Checked.ok w2
  | .failed stored =>
    let w1 := w.call_results stored
    let w2 :=
      match w1.conn.ec_callback_ with
      | some cb => w1.call_ec_callback cb
      | none => w1
    let w3 := w2.clear_callbacks
    Checked.ok
      { w3 with
        conn := { w3.conn with is_working_ := false, running := false },
        log := w3.log ++ [TransEvent.closed_callback] }

/-- One posted task, run by the reactor. -/
def TransWorld.run_task (w : TransWorld) : ReactorTask → TransWorld
  | .begin =>
    TransWorld.conn_execute_sql
      { w with
        conn := { w.conn with complete_callback_ := some CompleteCallback.transaction },
        trans := { w.trans with is_working_ := true } }
      "begin" (some TransResultCallback.begin) (some TransExceptCallback.begin)
  | .deliver cb =>
    { w with
      client_holds := true,
      log := w.log ++
        [TransEvent.deliver cb w.trans.is_working_ w.conn.sql_ w.conn.is_working_] }
  | .rollback =>
    if w.trans.is_commited_rollback then w
    else if w.trans.is_working_ then
      { w with trans := { w.trans with
          sqlCmdBuffer_ :=
            { sql_ := "rollback", result_callback_ := some CmdCallback.mark_finished,
              ec_callback_ := some CmdCallback.mark_finished, is_rollback_cmd_ := true }
            :: w.trans.sqlCmdBuffer_ } }
    else
      TransWorld.conn_execute_sql { w with trans := { w.trans with is_working_ := true } }
        "rollback" (some TransResultCallback.rollback) (some TransExceptCallback.rollback)
  | .commit ucb commitCb =>
    TransWorld.conn_execute_sql
      { w with conn := { w.conn with complete_callback_ := some (CompleteCallback.released ucb) } }
      "commit" (some (TransResultCallback.commit commitCb))
      (some (TransExceptCallback.commit commitCb))
  | .async_execute => { w with conn := { w.conn with running := true } }

/-- An idle connection of the pool whose last statement was `last_sql`. -/
def BoundConnection.idle (last_sql : String) : BoundConnection :=
  { sql_ := last_sql, is_working_ := false, result_callback_ := none, ec_callback_ := none,
    complete_callback_ := some CompleteCallback.pool, running := false }

/-- The constructor `MysqlTransaction(conn_ptr, commit_callback, usedup_callback)`. -/
def MysqlTransaction.mk0 (commit_callback usedup_callback : Option Nat) : MysqlTransaction :=
  { sqlCmdBuffer_ := [], is_commited_rollback := false, is_working_ := false,
    commit_callback_ := commit_callback, usedup_callback_ := usedup_callback }

/-- Source `MysqlConnectionPool::begin_trans(conn, callback)`: a transaction is
made with an empty commit callback and the release callback `ucb`;
`trans->do_begin()` is called; then the delivery of the transaction to `callback`
is posted. -/
def begin_trans (conn : BoundConnection) (callback : Nat) (ucb : Nat) : TransWorld :=
  let made : TransWorld :=
    { trans := MysqlTransaction.mk0 none (some ucb), destroyed := false,
      client_holds := false, conn := conn, posted := [], log := [] }
  { made.do_begin with posted := made.do_begin.posted ++ [ReactorTask.deliver callback] }

/-- What can happen next to a transaction: the requester submits a statement,
sets the commit callback or lets go of the transaction, the reactor runs its
oldest posted task, or the statement in flight ends. -/
inductive TransStep where
  | submit (sql : String) (rcb : ResultPtrCallback) (ecb : ExceptPtrCallback)
  | set_commit_callback (cb : Nat)
  | drop
  | run_task
  | finish (o : StatementOutcome)
  deriving DecidableEq, Repr

/-- One step; `none` when it cannot happen (the requester acts only while it
holds the transaction, the reactor needs a posted task, a statement ends only
while its coroutine runs) or when an assertion of the source fails in it. -/
def TransWorld.step? (w : TransWorld) : TransStep → Option TransWorld
  | .submit sql rcb ecb =>
    if w.client_holds then some (w.execute_sql sql rcb ecb).collect else none
  | .set_commit_callback cb =>
    if w.client_holds then some { w with trans := { w.trans with commit_callback_ := some cb } }
    else none
  | .drop =>
    if w.client_holds then some (TransWorld.collect { w with client_holds := false }) else none
  | .run_task =>
    match w.posted with
    | task :: rest => some (TransWorld.run_task { w with posted := rest } task).collect
    | [] => none
  | .finish o =>
    if w.conn.running then
      match w.finish o with
      | Checked.ok w1 => some w1.collect
      | Checked.assert_failed => none
    else none

/-- A sequence of steps, oldest first; `none` when one of them cannot happen. -/
def TransWorld.run? (w : TransWorld) : List TransStep → Option TransWorld
  | [] => some w
  | st :: rest =>
    match w.step? st with
    | some w1 => TransWorld.run? w1 rest
    | none => none

/-! ## Result set -/

/-- The bytes of a C string. -/
abbrev Bytes := List Nat

/-- The C function `tolower` on an `unsigned char`, in the C locale. -/
def tolower (c : Nat) : Nat :=
  if 65 ≤ c ∧ c ≤ 90 then c + 32 else c

/-- The `std::transform(..., tolower)` of the constructor and of `columnNumber`. -/
def to_lower (s : Bytes) : Bytes :=
  s.map tolower

/-- Two bytes that are the same or the two cases of one ASCII letter. -/
def same_ascii_letter (x y : Nat) : Prop :=
  x = y ∨ (65 ≤ x ∧ x ≤ 90 ∧ y = x + 32) ∨ (65 ≤ y ∧ y ≤ 90 ∧ x = y + 32)

/-- Two names that are equal up to the case of their ASCII letters. -/
def eq_ignore_ascii_case (a b : Bytes) : Prop :=
  List.Forall₂ same_ascii_letter a b

/-- A stored driver result (`MYSQL_RES`) as the constructor of `MysqlResult`
reads it: the names of `mysql_fetch_fields` (`mysql_num_fields` is their number)
and, for each `mysql_fetch_row` in turn, the cells of the row (`none` for a null
pointer, which is SQL NULL) with the lengths of `mysql_fetch_lengths`
(`mysql_num_rows` is the number of rows). -/
structure MYSQL_RES where
  fields : List Bytes
  rows : List (List (Option Bytes) × List Nat)

/-- Source `using FieldNames = std::map<std::string, RowSizeType>`. -/
abbrev FieldNames := Bytes → Option Nat

/-- The assignment `map[key] = value` of `std::map`. -/
def FieldNames.set (m : FieldNames) (key : Bytes) (value : Nat) : FieldNames :=
  fun k => if k = key then some value else m k

/-- The value `-1` returned as `RowSizeType` (`unsigned long`). -/
def not_found : Nat := 2 ^ 64 - 1

/-- The fields of `class MysqlResult`; a `none` is a null pointer. -/
structure MysqlResult where
  field_array_ : Option (List Bytes)
  fields_map_ptr_ : Option FieldNames
  rows_ptr_ : Option (List (List (Option Bytes) × List Nat))
  rows_number_ : Nat
  fields_number_ : Nat
  affected_rows_ : Nat
  insert_id_ : Nat

/-- The loop of the constructor over the fields, from index `i` on: the
lowercased name of each field is mapped to its index. -/
def fill_fields_map : List Bytes → Nat → FieldNames → FieldNames
  | [], _, m => m
  | name :: rest, i, m => fill_fields_map rest (i + 1) (m.set (to_lower name) i)

/-- The constructor `MysqlResult(r, affected_rows, insert_id)`; `r` is `none`
for a null result pointer. -/
def MysqlResult.make (r : Option MYSQL_RES) (affected_rows insert_id : Nat) : MysqlResult :=
  let rows_number :=
    match r with
    | some res => res.rows.length
    | none => 0
  let field_array := r.map (fun res => res.fields)
  let fields_number :=
    match r with
    | some res => res.fields.length
    | none => 0
  { field_array_ := field_array,
    fields_map_ptr_ :=
      if fields_number > 0 then
        some (fill_fields_map ((field_array.getD []).take fields_number) 0 (fun _ => none))
      else none,
    rows_ptr_ :=
      if rows_number > 0 then
        some (((r.map (fun res => res.rows)).getD []).map
          (fun row => (row.1, row.2.take fields_number)))
      else none,
    rows_number_ := rows_number,
    fields_number_ := fields_number,
    affected_rows_ := affected_rows,
    insert_id_ := insert_id }

/-- Source `MysqlResult::size`. -/
def MysqlResult.size (m : MysqlResult) : Nat := m.rows_number_

/-- Source `MysqlResult::columns`. -/
def MysqlResult.columns (m : MysqlResult) : Nat := m.fields_number_

/-- Source `MysqlResult::columnName`. -/
def MysqlResult.columnName (m : MysqlResult) (number : Nat) : Checked Bytes :=
  if number < m.fields_number_ then
    match m.field_array_ with
    | some names => Checked.ok (names.getD number [])
    | none => Checked.ok []
  else Checked.assert_failed

/-- Source `MysqlResult::columnNumber`. -/
def MysqlResult.columnNumber (m : MysqlResult) (colName : Bytes) : Nat :=
  match m.fields_map_ptr_ with
  | none => not_found
  | some map =>
    match map (to_lower colName) with
    | some i => i
    | none => not_found

/-- Source `MysqlResult::getValue`; `none` is the null pointer. -/
def MysqlResult.getValue (m : MysqlResult) (row column : Nat) : Checked (Option Bytes) :=
  if m.rows_number_ = 0 ∨ m.fields_number_ = 0 then Checked.ok none
  else if ¬ row < m.rows_number_ then Checked.assert_failed
  else if ¬ column < m.fields_number_ then Checked.assert_failed
  else Checked.ok ((((m.rows_ptr_.getD []).getD row ([], [])).1).getD column none)

/-- Source `MysqlResult::getLength`. -/
def MysqlResult.getLength (m : MysqlResult) (row column : Nat) : Checked Nat :=
  if m.rows_number_ = 0 ∨ m.fields_number_ = 0 then Checked.ok 0
  else if ¬ row < m.rows_number_ then Checked.assert_failed
  else if ¬ column < m.fields_number_ then Checked.assert_failed
  else Checked.ok ((((m.rows_ptr_.getD []).getD row ([], [])).2).getD column 0)

/-- Source `MysqlResult::isNull`. -/
def MysqlResult.isNull (m : MysqlResult) (row column : Nat) : Checked Bool :=
  match m.getValue row column with
  | Checked.ok value => Checked.ok value.isNone
  | Checked.assert_failed => Checked.assert_failed

/-- A result of two rows and two columns `Id` and `name`; the second row has a
SQL NULL in the second column. -/
def sample_res : MYSQL_RES :=
  { fields := [[73, 100], [110, 97, 109, 101]],
    rows := [([some [49], some [97, 98]], [1, 2]), ([some [50], none], [1, 0])] }

/-- A result with two columns and no row. -/
def empty_res : MYSQL_RES :=
  { fields := [[73, 100], [110, 97, 109, 101]], rows := [] }

/-- A result with three columns `Id`, `name` and `ID` and no row: the first and
the third name are equal up to case. -/
def duplicate_res : MYSQL_RES :=
  { fields := [[73, 100], [110, 97, 109, 101], [73, 68]], rows := [] }

/-- A transaction on an idle pooled connection, requested with callback 7 and
release callback 9. -/
def fresh_world : TransWorld :=
  begin_trans (BoundConnection.idle "select 1") 7 9

/-- BEGIN is dispatched and succeeds, the requester gets the transaction, sets
commit callback 5 and submits one statement, which fails; the reactor then runs
the task posted by `roll_back`, and the requester lets go of the transaction. -/
def failing_statement_steps : List TransStep :=
  [TransStep.run_task, TransStep.run_task, TransStep.run_task,
   TransStep.finish (StatementOutcome.completed 0),
   TransStep.set_commit_callback 5,
   TransStep.submit "insert into t values (1)" (some 1) (some 2),
   TransStep.run_task, TransStep.finish (StatementOutcome.failed 0),
   TransStep.run_task, TransStep.drop]

/-- The requester gets the transaction while BEGIN is in flight; BEGIN then
fails. -/
def begin_fails_steps : List TransStep :=
  [TransStep.run_task, TransStep.run_task, TransStep.run_task,
   TransStep.finish (StatementOutcome.failed 0)]

/-- The requester gets the transaction while BEGIN is in flight and submits a
statement, which is buffered behind BEGIN; BEGIN then fails, and the requester
lets go of the transaction. -/
def begin_fails_with_queued_steps : List TransStep :=
  [TransStep.run_task, TransStep.run_task,
   TransStep.submit "insert into t values (1)" (some 1) (some 2),
   TransStep.run_task, TransStep.finish (StatementOutcome.failed 0), TransStep.drop]

/-- The requester gets the transaction while BEGIN is in flight and lets go of
it at once; BEGIN then fails. -/
def begin_fails_after_drop_steps : List TransStep :=
  [TransStep.run_task, TransStep.run_task, TransStep.drop, TransStep.run_task,
   TransStep.finish (StatementOutcome.failed 0)]

/-- A transaction is made, BEGIN succeeds, the requester sets commit callback 5
and lets go of the transaction. -/
def begin_and_drop_steps : List TransStep :=
  [TransStep.run_task, TransStep.run_task, TransStep.run_task,
   TransStep.finish (StatementOutcome.completed 0),
   TransStep.set_commit_callback 5, TransStep.drop]

/-- The transaction of `fresh_world` once BEGIN has completed and the requester
has set commit callback 5, with the requester's reference already gone. -/
def idle_world : TransWorld :=
  { trans := { sqlCmdBuffer_ := [], is_commited_rollback := false, is_working_ := false,
               commit_callback_ := some 5, usedup_callback_ := some 9 },
    destroyed := false, client_holds := false,
    conn := { sql_ := "begin", is_working_ := false, result_callback_ := none,
              ec_callback_ := none,
              complete_callback_ := some CompleteCallback.transaction, running := false },
    posted := [],
    log := [TransEvent.execute_sql "begin" false, TransEvent.deliver 7 true "begin" true] }

/-! ## A transaction whose statements all succeed -/

/-- The buffered form of a submitted statement, as `execute_sql` makes it. -/
def SqlCmd.buffered (c : SqlCmd) : TransSqlCmd :=
  { sql_ := c.sql_, result_callback_ := c.result_callback_.map CmdCallback.user,
    ec_callback_ := c.exception_callback_.map CmdCallback.user, is_rollback_cmd_ := false }

/-- The statement of the connection once the statements `done` have completed
after BEGIN. -/
def last_sql_of (done : List SqlCmd) : String :=
  match done.getLast? with
  | some c => c.sql_
  | none => "begin"

/-- The stages a transaction goes through while no statement fails. `k` is the
commit callback set so far, `done` are the statements that have completed, `cur`
is the one in flight, `queued` are those in the buffer; `direct` says that `cur`
was dispatched by `execute_sql` itself, `spawned` that the coroutine of the
statement in flight runs, `holds` that the requester still holds the
transaction, `working` is the value of `is_working_` the destructor left
behind. -/
inductive Stage where
  | created
  | begun
  | beginning (k : Option Nat) (spawned holds : Bool) (queued : List SqlCmd)
  | executing (k : Option Nat) (done : List SqlCmd) (cur : SqlCmd)
      (direct spawned holds : Bool) (queued : List SqlCmd)
  | idle (k : Option Nat) (done : List SqlCmd)
  | commit_posted (k : Option Nat) (done : List SqlCmd) (working : Bool)
  | committing (k : Option Nat) (done : List SqlCmd) (working spawned : Bool)
  | committed (k : Option Nat) (done : List SqlCmd) (working : Bool)
  deriving DecidableEq, Repr

/-- The statements submitted so far at a stage. -/
def Stage.cmds : Stage → List SqlCmd
  | .created => []
  | .begun => []
  | .beginning _ _ _ queued => queued
  | .executing _ done cur _ _ _ queued => done ++ cur :: queued
  | .idle _ done => done
  | .commit_posted _ done _ => done
  | .committing _ done _ _ => done
  | .committed _ done _ => done

/-- The commit callback set so far at a stage. -/
def Stage.commitCb : Stage → Option Nat
  | .created => none
  | .begun => none
  | .beginning k _ _ _ => k
  | .executing k _ _ _ _ _ _ => k
  | .idle k _ => k
  | .commit_posted k _ _ => k
  | .committing k _ _ _ => k
  | .committed k _ _ => k

/-- The stage after a statement in flight has completed: the next buffered
statement is dispatched, or the transaction is idle, or, when nothing references
it any more, it is destroyed and its COMMIT is posted. -/
def Stage.after_completion (k : Option Nat) (done : List SqlCmd) (holds : Bool) :
    List SqlCmd → Stage
  | next :: rest => Stage.executing k done next false false holds rest
  | [] => if holds then Stage.idle k done else Stage.commit_posted k done true

/-- One step on the stages, for a step in which nothing fails. -/
def Stage.step? : Stage → TransStep → Option Stage
  | .created, .run_task => some Stage.begun
  | .begun, .run_task => some (Stage.beginning none false true [])
  | .beginning k spawned true queued, .submit sql rcb ecb =>
    some (Stage.beginning k spawned true (queued ++ [SqlCmd.mk sql rcb ecb]))
  | .beginning _ spawned true queued, .set_commit_callback c =>
    some (Stage.beginning (some c) spawned true queued)
  | .beginning k spawned true queued, .drop => some (Stage.beginning k spawned false queued)
  | .beginning k false holds queued, .run_task => some (Stage.beginning k true holds queued)
  | .beginning k true holds queued, .finish (.completed 0) =>
    some (Stage.after_completion k [] holds queued)
  | .executing k done cur direct spawned true queued, .submit sql rcb ecb =>
    some (Stage.executing k done cur direct spawned true (queued ++ [SqlCmd.mk sql rcb ecb]))
  | .executing _ done cur direct spawned true queued, .set_commit_callback c =>
    some (Stage.executing (some c) done cur direct spawned true queued)
  | .executing k done cur direct spawned true queued, .drop =>
    some (Stage.executing k done cur direct spawned false queued)
  | .executing k done cur direct false holds queued, .run_task =>
    some (Stage.executing k done cur direct true holds queued)
  | .executing k done cur _ true holds queued, .finish (.completed 0) =>
    some (Stage.after_completion k (done ++ [cur]) holds queued)
  | .idle k done, .submit sql rcb ecb =>
    some (Stage.executing k done (SqlCmd.mk sql rcb ecb) true false true [])
  | .idle _ done, .set_commit_callback c => some (Stage.idle (some c) done)
  | .idle k done, .drop => some (Stage.commit_posted k done false)
  | .commit_posted k done working, .run_task => some (Stage.committing k done working false)
  | .committing k done working false, .run_task => some (Stage.committing k done working true)
  | .committing k done working true, .finish (.completed 0) =>
    some (Stage.committed k done working)
  | _, _ => none

/-- A sequence of steps on the stages. -/
def Stage.run? (a : Stage) : List TransStep → Option Stage
  | [] => some a
  | st :: rest =>
    match a.step? st with
    | some a1 => Stage.run? a1 rest
    | none => none

/-! ## Basic facts -/

theorem begin?_eq_none {s : Finset ConnId} : begin? s = none ↔ s = ∅ := by
  unfold begin?
  split
  · rename_i h; simp [h.ne_empty]
  · rename_i h; simp [Finset.not_nonempty_iff_eq_empty.mp h]

theorem begin?_mem {s : Finset ConnId} {c : ConnId} (h : begin? s = some c) : c ∈ s := by
  unfold begin? at h
  split at h
  · rename_i hn
    cases h
    exact Finset.min'_mem s hn
  · cases h

theorem freshConn_not_mem (p : MysqlConnectionPool) : freshConn p ∉ p.connections_ := by
  intro h
  have h1 : freshConn p ∈ p.connections_ ∪ p.ready_connections_ ∪ p.busy_connections_ := by
    simp [h]
  have h2 : freshConn p ≤ (p.connections_ ∪ p.ready_connections_ ∪ p.busy_connections_).sup id :=
    @Finset.le_sup _ _ _ _ _ id _ h1
  have h3 : freshConn p = (p.connections_ ∪ p.ready_connections_ ∪ p.busy_connections_).sup id + 1 :=
    rfl
  rw [h3] at h2
  exact absurd h2 (Nat.not_succ_le_self _)

/-- With nothing idle and at most `max_sql_buffer` statements queued, the public
`execute_sql` appends the statement and leaves the idle set empty. -/
theorem execute_sql_enqueue (p : MysqlConnectionPool) (sql : String)
    (rcb : ResultPtrCallback) (ecb : ExceptPtrCallback)
    (hr : p.ready_connections_ = ∅) (hbuf : p.sqlCmd_buffer_.length ≤ max_sql_buffer) :
    (execute_sql p sql rcb ecb).1.sqlCmd_buffer_ = p.sqlCmd_buffer_ ++ [SqlCmd.mk sql rcb ecb] ∧
    (execute_sql p sql rcb ecb).1.ready_connections_ = ∅ := by
  have hb : begin? p.ready_connections_ = none := begin?_eq_none.mpr hr
  have hlen : ¬ p.sqlCmd_buffer_.length > max_sql_buffer := Nat.not_lt.mpr hbuf
  simp only [execute_sql, hb, hlen, if_false]
  split <;> exact ⟨rfl, hr⟩

/-- With nothing idle and more than `max_sql_buffer` statements queued, the
public `execute_sql` only raises `is_busy_`. -/
theorem execute_sql_overloaded (p : MysqlConnectionPool) (sql : String)
    (rcb : ResultPtrCallback) (ecb : ExceptPtrCallback)
    (hr : p.ready_connections_ = ∅) (hbuf : max_sql_buffer < p.sqlCmd_buffer_.length) :
    execute_sql p sql rcb ecb = ({ p with is_busy_ := true }, []) := by
  have hb : begin? p.ready_connections_ = none := begin?_eq_none.mpr hr
  have hlen : p.sqlCmd_buffer_.length > max_sql_buffer := hbuf
  simp only [execute_sql, hb, hlen, if_true]

theorem submit_all_enqueue (cmds : List SqlCmd) :
    ∀ p : MysqlConnectionPool, p.ready_connections_ = ∅ →
      p.sqlCmd_buffer_.length + cmds.length ≤ max_sql_buffer + 1 →
      (submit_all p cmds).sqlCmd_buffer_ = p.sqlCmd_buffer_ ++ cmds ∧
      (submit_all p cmds).ready_connections_ = ∅ := by
  induction cmds with
  | nil => intro p hr _; exact ⟨by simp [submit_all], hr⟩
  | cons cmd rest ih =>
    intro p hr hlen
    have hl : p.sqlCmd_buffer_.length ≤ max_sql_buffer := by
      simp only [List.length_cons] at hlen; omega
    have h := execute_sql_enqueue p cmd.sql_ cmd.result_callback_ cmd.exception_callback_ hr hl
    have hstep : submit_all p (cmd :: rest) =
        submit_all (execute_sql p cmd.sql_ cmd.result_callback_ cmd.exception_callback_).1 rest :=
      rfl
    have hrec := ih _ h.2 (by rw [h.1]; simp only [List.length_append, List.length_cons,
      List.length_nil] at hlen ⊢; omega)
    rw [hstep]
    refine ⟨?_, hrec.2⟩
    rw [hrec.1, h.1]
    simp

theorem submit_all_append (p : MysqlConnectionPool) (a b : List SqlCmd) :
    submit_all p (a ++ b) = submit_all (submit_all p a) b := by
  simp only [submit_all, List.foldl_append]

/-- Submitting `max_sql_buffer + 2` statements to a pool with nothing idle and
nothing queued: all but the last are queued. -/
theorem submit_all_overflow (p : MysqlConnectionPool) (cmds : List SqlCmd)
    (hr : p.ready_connections_ = ∅) (hb : p.sqlCmd_buffer_ = [])
    (hlen : cmds.length = max_sql_buffer + 2) :
    (submit_all p (cmds.take (max_sql_buffer + 1))).sqlCmd_buffer_ =
      cmds.take (max_sql_buffer + 1) ∧
    (submit_all p cmds).sqlCmd_buffer_ = cmds.take (max_sql_buffer + 1) := by
  have htake : (cmds.take (max_sql_buffer + 1)).length = max_sql_buffer + 1 := by
    rw [List.length_take, hlen]; omega
  have h1 := submit_all_enqueue (cmds.take (max_sql_buffer + 1)) p hr
    (by rw [hb, htake]; simp)
  rw [hb, List.nil_append] at h1
  refine ⟨h1.1, ?_⟩
  have hdrop : (cmds.drop (max_sql_buffer + 1)).length = 1 := by
    rw [List.length_drop, hlen]; omega
  obtain ⟨x, hx⟩ := List.length_eq_one.mp hdrop
  have hsplit : cmds = cmds.take (max_sql_buffer + 1) ++ [x] := by
    rw [← hx, List.take_append_drop]
  have hlast : submit_all (submit_all p (cmds.take (max_sql_buffer + 1))) [x] =
      (execute_sql (submit_all p (cmds.take (max_sql_buffer + 1)))
        x.sql_ x.result_callback_ x.exception_callback_).1 := rfl
  have hover := execute_sql_overloaded (submit_all p (cmds.take (max_sql_buffer + 1)))
    x.sql_ x.result_callback_ x.exception_callback_ h1.2
    (by rw [h1.1, htake]; exact Nat.lt_succ_self _)
  have hall : submit_all p cmds =
      submit_all (submit_all p (cmds.take (max_sql_buffer + 1))) [x] := by
    rw [← submit_all_append, ← hsplit]
  rw [hall, hlast, hover]
  exact h1.1

theorem overloaded_pool_ready : overloaded_pool.ready_connections_ = ∅ := by
  unfold overloaded_pool
  rfl

theorem overloaded_pool_length : overloaded_pool.sqlCmd_buffer_.length = 200001 := by
  unfold overloaded_pool
  simp only [List.length_map, List.length_range]


/-! ## The population bound -/

theorem handle_new_task_bound (p : MysqlConnectionPool) (c : ConnId) :
    (handle_new_task p c).1.max_size_ = p.max_size_ ∧
    (handle_new_task p c).1.connections_ ⊆ p.connections_ := by
  unfold handle_new_task
  split
  · exact ⟨rfl, Finset.Subset.refl _⟩
  · split
    · split <;> exact ⟨rfl, Finset.Subset.refl _⟩
    · split
      · exact ⟨rfl, Finset.erase_subset _ _⟩
      · exact ⟨rfl, Finset.Subset.refl _⟩

theorem execute_sql_bound (p : MysqlConnectionPool) (sql : String)
    (rcb : ResultPtrCallback) (ecb : ExceptPtrCallback)
    (h : p.connections_.card ≤ p.max_size_) :
    (execute_sql p sql rcb ecb).1.max_size_ = p.max_size_ ∧
    (execute_sql p sql rcb ecb).1.connections_.card ≤ p.max_size_ := by
  unfold execute_sql
  split
  · split
    · exact ⟨rfl, h⟩
    · simp only
      split
      · rename_i hlt
        refine ⟨rfl, ?_⟩
        exact Nat.le_trans (Finset.card_insert_le _ _) hlt
      · exact ⟨rfl, h⟩
  · exact ⟨rfl, h⟩

theorem new_transaction_async_connections (p : MysqlConnectionPool)
    (cb : TransactionPtrCallback) :
    (new_transaction_async p cb).1.max_size_ = p.max_size_ ∧
    (new_transaction_async p cb).1.connections_ = p.connections_ := by
  unfold new_transaction_async
  split <;> exact ⟨rfl, rfl⟩

theorem PoolEvent.apply_bound (p : MysqlConnectionPool) (ev : PoolEvent)
    (h : p.connections_.card ≤ p.max_size_) :
    (ev.apply p).max_size_ = p.max_size_ ∧ (ev.apply p).connections_.card ≤ p.max_size_ := by
  cases ev with
  | execute_sql sql rcb ecb => exact execute_sql_bound p sql rcb ecb h
  | new_transaction_async cb =>
    have h1 := new_transaction_async_connections p cb
    exact ⟨h1.1, by simp only [PoolEvent.apply]; rw [h1.2]; exact h⟩
  | connected c =>
    have h1 := handle_new_task_bound
      { p with busy_connections_ := insert c p.busy_connections_ } c
    exact ⟨h1.1, Nat.le_trans (Finset.card_le_card h1.2) h⟩
  | completed c =>
    have h1 := handle_new_task_bound p c
    exact ⟨h1.1, Nat.le_trans (Finset.card_le_card h1.2) h⟩
  | closed c =>
    exact ⟨rfl, Nat.le_trans (Finset.card_le_card (Finset.erase_subset _ _)) h⟩
  | release c status =>
    simp only [PoolEvent.apply, release_callback]
    split
    · exact ⟨rfl, h⟩
    · split <;> exact ⟨rfl, h⟩
  | release_task c =>
    have h1 := handle_new_task_bound p c
    exact ⟨h1.1, Nat.le_trans (Finset.card_le_card h1.2) h⟩

theorem run_events_bound (evs : List PoolEvent) :
    ∀ p : MysqlConnectionPool, p.connections_.card ≤ p.max_size_ →
      (run_events p evs).max_size_ = p.max_size_ ∧
      (run_events p evs).connections_.card ≤ p.max_size_ := by
  induction evs with
  | nil => intro p h; exact ⟨rfl, h⟩
  | cons ev rest ih =>
    intro p h
    have h1 := PoolEvent.apply_bound p ev h
    have h2 := ih (ev.apply p) (by rw [h1.1]; exact h1.2)
    have hstep : run_events p (ev :: rest) = run_events (ev.apply p) rest := rfl
    rw [hstep]
    exact ⟨h2.1.trans h1.1, by rw [← h1.1]; exact h2.2⟩

theorem init_loop_bound (n : Nat) :
    ∀ p : MysqlConnectionPool,
      (init_loop n p).1.max_size_ = p.max_size_ ∧
      (init_loop n p).1.connections_.card ≤ p.connections_.card + n := by
  induction n with
  | zero => intro p; exact ⟨rfl, Nat.le_refl _⟩
  | succ n ih =>
    intro p
    have h := ih { p with connections_ := insert (create_connection p).1 p.connections_ }
    refine ⟨h.1, Nat.le_trans h.2 ?_⟩
    have := Finset.card_insert_le (create_connection p).1 p.connections_
    simp only at this ⊢
    omega


/-! ## The relation between the three sets -/

theorem closed_callback_invariant (p : MysqlConnectionPool) (c : ConnId)
    (h : SetsInvariant p) : SetsInvariant (closed_callback p c) := by
  obtain ⟨h1, h2, h3⟩ := h
  refine ⟨?_, ?_, ?_⟩
  · exact Finset.disjoint_of_subset_left (Finset.erase_subset _ _)
      (Finset.disjoint_of_subset_right (Finset.erase_subset _ _) h1)
  · exact Finset.erase_subset_erase _ h2
  · exact Finset.erase_subset_erase _ h3

theorem handle_new_task_invariant (p : MysqlConnectionPool) (c : ConnId)
    (h : SetsInvariant p) (hc : c ∈ p.connections_) :
    SetsInvariant (handle_new_task p c).1 := by
  unfold handle_new_task
  split
  · exact h
  · split
    · split <;> exact h
    · split
      · exact closed_callback_invariant p c h
      · obtain ⟨h1, h2, h3⟩ := h
        refine ⟨?_, ?_, ?_⟩
        · rw [Finset.disjoint_left] at h1 ⊢
          intro x hx hx2
          simp only [Finset.mem_insert] at hx
          simp only [Finset.mem_erase] at hx2
          rcases hx with hx | hx
          · exact hx2.1 hx
          · exact h1 hx hx2.2
        · intro x hx
          simp only [Finset.mem_insert] at hx
          rcases hx with hx | hx
          · rw [hx]; exact hc
          · exact h2 hx
        · exact (Finset.erase_subset _ _).trans h3

theorem move_to_busy_invariant (p : MysqlConnectionPool) (c : ConnId)
    (h : SetsInvariant p) (hc : c ∈ p.ready_connections_) :
    SetsInvariant { p with
      busy_connections_ := insert c p.busy_connections_,
      ready_connections_ := p.ready_connections_.erase c } := by
  obtain ⟨h1, h2, h3⟩ := h
  refine ⟨?_, ?_, ?_⟩
  · rw [Finset.disjoint_left] at h1 ⊢
    intro x hx hx2
    simp only [Finset.mem_erase] at hx
    simp only [Finset.mem_insert] at hx2
    rcases hx2 with hx2 | hx2
    · exact hx.1 hx2
    · exact h1 hx.2 hx2
  · exact (Finset.erase_subset _ _).trans h2
  · intro x hx
    simp only [Finset.mem_insert] at hx
    rcases hx with hx | hx
    · rw [hx]; exact h2 hc
    · exact h3 hx

theorem execute_sql_invariant (p : MysqlConnectionPool) (sql : String)
    (rcb : ResultPtrCallback) (ecb : ExceptPtrCallback) (h : SetsInvariant p) :
    SetsInvariant (execute_sql p sql rcb ecb).1 := by
  unfold execute_sql
  split
  · split
    · exact h
    · simp only
      split
      · exact ⟨h.1, h.2.1.trans (Finset.subset_insert _ _),
          h.2.2.trans (Finset.subset_insert _ _)⟩
      · exact h
  · rename_i c hb
    exact move_to_busy_invariant p c h (begin?_mem hb)

theorem new_transaction_async_invariant (p : MysqlConnectionPool)
    (cb : TransactionPtrCallback) (h : SetsInvariant p) :
    SetsInvariant (new_transaction_async p cb).1 := by
  unfold new_transaction_async
  split
  · rename_i c hb
    exact move_to_busy_invariant p c h (begin?_mem hb)
  · exact h

theorem PoolEvent.apply_invariant (p : MysqlConnectionPool) (ev : PoolEvent)
    (h : SetsInvariant p) (hg : ev.onMember p) : SetsInvariant (ev.apply p) := by
  cases ev with
  | execute_sql sql rcb ecb => exact execute_sql_invariant p sql rcb ecb h
  | new_transaction_async cb => exact new_transaction_async_invariant p cb h
  | connected c =>
    obtain ⟨h1, h2, h3⟩ := h
    refine handle_new_task_invariant
      { p with busy_connections_ := insert c p.busy_connections_ } c ⟨?_, h2, ?_⟩ hg.1
    · rw [Finset.disjoint_left] at h1 ⊢
      intro x hx hx2
      simp only [Finset.mem_insert] at hx2
      rcases hx2 with hx2 | hx2
      · rw [hx2] at hx; exact hg.2 hx
      · exact h1 hx hx2
    · intro x hx
      simp only [Finset.mem_insert] at hx
      rcases hx with hx | hx
      · rw [hx]; exact hg.1
      · exact h3 hx
  | completed c => exact handle_new_task_invariant p c h hg
  | closed c => exact closed_callback_invariant p c h
  | release c status =>
    simp only [PoolEvent.apply, release_callback]
    split
    · exact h
    · split <;> exact h
  | release_task c => exact handle_new_task_invariant p c h hg

theorem init_loop_sets (n : Nat) :
    ∀ p : MysqlConnectionPool,
      (init_loop n p).1.ready_connections_ = p.ready_connections_ ∧
      (init_loop n p).1.busy_connections_ = p.busy_connections_ := by
  induction n with
  | zero => intro p; exact ⟨rfl, rfl⟩
  | succ n ih =>
    intro p
    exact ih { p with connections_ := insert (create_connection p).1 p.connections_ }

/-- From a freshly constructed pool through `init` and any sequence of pool
events, idle and busy stay disjoint subsets of the population as long as the
connected callback, the complete callback and the posted release task arrive
for members of the population; the closed callback may come at any time. -/
theorem sets_invariant_of_allOnMember (min_size max_size : Nat) (evs : List PoolEvent)
    (hg : AllOnMember (init (MysqlConnectionPool.mk0 min_size max_size)).1 evs) :
    SetsInvariant (run_events (init (MysqlConnectionPool.mk0 min_size max_size)).1 evs) := by
  have h0 : SetsInvariant (init (MysqlConnectionPool.mk0 min_size max_size)).1 := by
    have hs := init_loop_sets min_size (MysqlConnectionPool.mk0 min_size max_size)
    have hr : (init (MysqlConnectionPool.mk0 min_size max_size)).1.ready_connections_ = ∅ :=
      hs.1
    have hb : (init (MysqlConnectionPool.mk0 min_size max_size)).1.busy_connections_ = ∅ :=
      hs.2
    refine ⟨?_, ?_, ?_⟩
    · rw [hr]; exact Finset.disjoint_empty_left _
    · rw [hr]; exact Finset.empty_subset _
    · rw [hb]; exact Finset.empty_subset _
  generalize (init (MysqlConnectionPool.mk0 min_size max_size)).1 = p at hg h0
  induction evs generalizing p with
  | nil => exact h0
  | cons ev rest ih =>
    exact ih (ev.apply p) hg.2 (PoolEvent.apply_invariant p ev h0 hg.1)

/-- When `close_all` returns, idle and busy are disjoint subsets of the
population: all three are empty. -/
theorem close_all_returned_invariant (p q : MysqlConnectionPool) (effects : List Effect)
    (h : close_all p = CloseAllOutcome.returned q effects) : SetsInvariant q := by
  unfold close_all at h
  split at h
  · cases h
  · cases h
    exact ⟨Finset.disjoint_empty_left _, Finset.Subset.refl _, Finset.Subset.refl _⟩

/-! ## Claims on the pool -/

/-- C1: with at most 200,000 statements queued, the public `execute_sql` either
moves exactly one idle connection to the busy set and dispatches the statement
with its two callbacks to it, queue and population unchanged; or, with nothing
idle, dispatches nothing, appends the `SqlCmd` at the back of the queue and adds
one new connection to the population exactly when it was below `max_size_`. -/
theorem execute_sql_dispatch (p : MysqlConnectionPool) (sql : String)
    (rcb : ResultPtrCallback) (ecb : ExceptPtrCallback)
    (hbuf : p.sqlCmd_buffer_.length ≤ 200000) :
    (p.ready_connections_ ≠ ∅ →
      ∃ c ∈ p.ready_connections_,
        (execute_sql p sql rcb ecb).1.ready_connections_ = p.ready_connections_.erase c ∧
        (execute_sql p sql rcb ecb).1.busy_connections_ = insert c p.busy_connections_ ∧
        (execute_sql p sql rcb ecb).2 = [Effect.execute_sql c sql rcb ecb] ∧
        (execute_sql p sql rcb ecb).1.sqlCmd_buffer_ = p.sqlCmd_buffer_ ∧
        (execute_sql p sql rcb ecb).1.connections_ = p.connections_) ∧
    (p.ready_connections_ = ∅ →
      (∀ e ∈ (execute_sql p sql rcb ecb).2, e.isDispatch = false) ∧
      (execute_sql p sql rcb ecb).1.sqlCmd_buffer_ = p.sqlCmd_buffer_ ++ [SqlCmd.mk sql rcb ecb] ∧
      (p.connections_.card < p.max_size_ →
        ∃ c, c ∉ p.connections_ ∧
          (execute_sql p sql rcb ecb).1.connections_ = insert c p.connections_ ∧
          (execute_sql p sql rcb ecb).1.connections_.card = p.connections_.card + 1) ∧
      (¬ p.connections_.card < p.max_size_ →
        (execute_sql p sql rcb ecb).1.connections_ = p.connections_)) := by
  constructor
  · intro hne
    cases hb : begin? p.ready_connections_ with
    | none => exact absurd (begin?_eq_none.mp hb) hne
    | some c =>
      refine ⟨c, begin?_mem hb, ?_⟩
      simp [execute_sql, hb]
  · intro he
    have hb : begin? p.ready_connections_ = none := begin?_eq_none.mpr he
    have hlen : ¬ p.sqlCmd_buffer_.length > max_sql_buffer := by
      simp only [max_sql_buffer]; omega
    refine ⟨?_, ?_, ?_, ?_⟩
    · intro e hmem
      simp only [execute_sql, hb, hlen, if_false] at hmem
      split at hmem
      · simp [create_connection] at hmem
        subst hmem; rfl
      · simp at hmem
    · simp only [execute_sql, hb, hlen, if_false]
      split <;> rfl
    · intro hlt
      refine ⟨freshConn p, freshConn_not_mem p, ?_, ?_⟩
      · simp only [execute_sql, hb, hlen, if_false, hlt, if_true, create_connection]
        rfl
      · simp only [execute_sql, hb, hlen, if_false, hlt, if_true, create_connection]
        exact Finset.card_insert_of_not_mem (freshConn_not_mem _)
    · intro hge
      simp only [execute_sql, hb, hlen, if_false, hge]

/-- C1 at a pool of one busy connection: the statement is queued and nothing is
dispatched. -/
theorem execute_sql_dispatch_witness :
    all_busy_pool.sqlCmd_buffer_.length ≤ 200000 ∧
    (execute_sql all_busy_pool "select 1" (some 7) (some 8)).1.sqlCmd_buffer_ =
      all_busy_pool.sqlCmd_buffer_ ++ [SqlCmd.mk "select 1" (some 7) (some 8)] :=
  ⟨by decide,
    ((execute_sql_dispatch all_busy_pool "select 1" (some 7) (some 8) (by decide)).2
      (by decide)).2.1⟩

/-- C2, as stated, fails: 200,001 statements submitted in a row to a pool with
nothing idle and nothing queued are all queued, the 200,001-st included, so the
queue then holds 200,001 commands and not 200,000. -/
theorem execute_sql_accepts_200001st :
    (submit_all all_busy_pool ((List.range 200001).map nth_cmd)).sqlCmd_buffer_ =
      (List.range 200001).map nth_cmd ∧
    (submit_all all_busy_pool ((List.range 200001).map nth_cmd)).sqlCmd_buffer_.length ≠
      200000 := by
  have h := (submit_all_enqueue ((List.range 200001).map nth_cmd) all_busy_pool rfl
    (by
      rw [List.length_map, List.length_range]
      exact Nat.le_of_eq rfl)).1
  have h2 : all_busy_pool.sqlCmd_buffer_ = [] := rfl
  rw [h2, List.nil_append] at h
  refine ⟨h, ?_⟩
  rw [h, List.length_map, List.length_range]
  decide

/-- C2, amended: when the public `execute_sql` is called 200,002 times in a row
on a pool with nothing idle and nothing queued, and nothing connects or completes
in between, the first 200,001 commands are queued and the 200,002-nd is not, so
the queue holds exactly 200,001 commands afterwards. -/
theorem execute_sql_rejects_200002nd (p : MysqlConnectionPool) (cmds : List SqlCmd)
    (hr : p.ready_connections_ = ∅) (hb : p.sqlCmd_buffer_ = [])
    (hlen : cmds.length = 200002) :
    (submit_all p (cmds.take 200001)).sqlCmd_buffer_ = cmds.take 200001 ∧
    (submit_all p cmds).sqlCmd_buffer_ = cmds.take 200001 ∧
    (submit_all p cmds).sqlCmd_buffer_.length = 200001 := by
  have h := submit_all_overflow p cmds hr hb hlen
  refine ⟨h.1, h.2, ?_⟩
  rw [h.2, List.length_take, hlen]
  rfl

/-- C2 amended, at the pool of one busy connection and 200,002 statements. -/
theorem execute_sql_rejects_200002nd_witness :
    all_busy_pool.ready_connections_ = ∅ ∧ all_busy_pool.sqlCmd_buffer_ = [] ∧
    ((List.range 200002).map nth_cmd).length = 200002 ∧
    (submit_all all_busy_pool ((List.range 200002).map nth_cmd)).sqlCmd_buffer_.length =
      200001 :=
  have hlen : ((List.range 200002).map nth_cmd).length = 200002 := by
    simp only [List.length_map, List.length_range]
  ⟨rfl, rfl, hlen,
    (execute_sql_rejects_200002nd all_busy_pool ((List.range 200002).map nth_cmd) rfl rfl
      hlen).2.2⟩

/-- C3, as stated, fails: with 200,001 statements queued and nothing idle, the
public `execute_sql` does nothing to the outside world (no callback is invoked)
and does not queue the statement. -/
theorem execute_sql_overload_silent_drop :
    (execute_sql overloaded_pool "select 1" (some 7) (some 8)).2 = [] ∧
    (execute_sql overloaded_pool "select 1" (some 7) (some 8)).1.sqlCmd_buffer_ =
      overloaded_pool.sqlCmd_buffer_ := by
  have h := execute_sql_overloaded overloaded_pool "select 1" (some 7) (some 8)
    overloaded_pool_ready (by rw [overloaded_pool_length]; exact Nat.lt_succ_self 200000)
  rw [h]
  constructor <;> simp only

/-- C3, amended: when the public `execute_sql` rejects a submission (nothing idle
and more than 200,000 statements queued) it raises `is_busy_` and does nothing
else: no callback is invoked, nothing is dispatched, and the sets and both
queues are as before. -/
theorem execute_sql_overload_sets_flag_only (p : MysqlConnectionPool) (sql : String)
    (rcb : ResultPtrCallback) (ecb : ExceptPtrCallback)
    (hr : p.ready_connections_ = ∅) (hbuf : 200000 < p.sqlCmd_buffer_.length) :
    execute_sql p sql rcb ecb = ({ p with is_busy_ := true }, []) :=
  execute_sql_overloaded p sql rcb ecb hr hbuf

/-- C3 amended, at the pool with 200,001 statements queued. -/
theorem execute_sql_overload_sets_flag_only_witness :
    overloaded_pool.ready_connections_ = ∅ ∧
    200000 < overloaded_pool.sqlCmd_buffer_.length ∧
    execute_sql overloaded_pool "select 1" (some 7) (some 8) =
      ({ overloaded_pool with is_busy_ := true }, []) :=
  have hlen : 200000 < overloaded_pool.sqlCmd_buffer_.length := by
    simp only [overloaded_pool_length, Nat.lt_add_one]
  ⟨overloaded_pool_ready, hlen,
    execute_sql_overload_sets_flag_only overloaded_pool "select 1" (some 7) (some 8)
      overloaded_pool_ready hlen⟩

/-- C4: on an empty pool with room for a connection, `new_transaction_async`
queues the callback and creates no connection, where the public `execute_sql`
in the same state creates one. -/
theorem new_transaction_async_spawns_nothing :
    (MysqlConnectionPool.mk0 0 1).ready_connections_ = ∅ ∧
    (MysqlConnectionPool.mk0 0 1).connections_.card < (MysqlConnectionPool.mk0 0 1).max_size_ ∧
    new_transaction_async (MysqlConnectionPool.mk0 0 1) (some 7) =
      ({ MysqlConnectionPool.mk0 0 1 with trans_callbacks_ := [some 7] }, []) ∧
    (execute_sql (MysqlConnectionPool.mk0 0 1) "select 1" (some 7) (some 8)).2 =
      [Effect.handle_connect 1] := by
  decide

/-- C5: BEGIN of a transaction fails after the requester has let go of the
transaction. On the side of the transaction, `handle_error` calls the error
callback of BEGIN and clears it, which destroys the transaction; its destructor
calls the release callback, and only then `handle_close` runs the closed
callback. On the side of the pool, the release callback finds the connection in
`connections_` and posts its task, the closed callback removes the connection
from the three sets, and the posted task then puts the connection into
`ready_connections_`, which is no longer a subset of `connections_`. -/
theorem release_before_closed_breaks_subset :
    (fresh_world.run? begin_fails_after_drop_steps).map TransWorld.log =
      some [TransEvent.execute_sql "begin" false, TransEvent.deliver 7 true "begin" true,
            TransEvent.destructor, TransEvent.usedup_callback 9,
            TransEvent.closed_callback] ∧
    SetsInvariant race_in_transaction ∧
    race_in_transaction.connections_ = {1} ∧
    race_in_transaction.busy_connections_ = {1} ∧
    (release_callback race_in_transaction 1 ConnectStatus.Ok).2 = [Effect.post_release 1] ∧
    (run_events race_in_transaction race_tail).ready_connections_ = {1} ∧
    (run_events race_in_transaction race_tail).connections_ = ∅ ∧
    ¬ SetsInvariant (run_events race_in_transaction race_tail) := by
  refine ⟨by decide, ?_⟩
  decide

/-- C6: for a pool constructed with `min_size ≤ max_size`, after `init` and any
sequence of pool events the population `connections_` holds at most `max_size`
connections. -/
theorem connections_card_le_max_size (min_size max_size : Nat) (h : min_size ≤ max_size)
    (evs : List PoolEvent) :
    (run_events (init (MysqlConnectionPool.mk0 min_size max_size)).1 evs).connections_.card
      ≤ max_size := by
  have h0 := init_loop_bound min_size (MysqlConnectionPool.mk0 min_size max_size)
  have h1 : (init (MysqlConnectionPool.mk0 min_size max_size)).1.max_size_ = max_size := h0.1
  have h2 : (init (MysqlConnectionPool.mk0 min_size max_size)).1.connections_.card ≤ max_size := by
    have := h0.2
    simp only [MysqlConnectionPool.mk0, Finset.card_empty, Nat.zero_add] at this
    exact Nat.le_trans this h
  have h3 := run_events_bound evs (init (MysqlConnectionPool.mk0 min_size max_size)).1
    (by rw [h1]; exact h2)
  rw [h1] at h3
  exact h3.2

/-- C6 at a pool with `min_size = 1`, `max_size = 2` and three submissions. -/
theorem connections_card_le_max_size_witness :
    1 ≤ 2 ∧
    (run_events (init (MysqlConnectionPool.mk0 1 2)).1
      [PoolEvent.execute_sql "a" none none, PoolEvent.execute_sql "b" none none,
        PoolEvent.connected 1, PoolEvent.execute_sql "c" none none]).connections_.card ≤ 2 :=
  ⟨by decide, connections_card_le_max_size 1 2 (by decide) _⟩

theorem call_result_callback_some {c : MysqlConnection} {rcb : Nat}
    (h : c.result_callback_ = some rcb) (s : StoreOutcome) :
    c.call_result_callback s =
      [ConnEvent.result_callback rcb s.result s.affected_rows s.insert_id] := by
  simp only [MysqlConnection.call_result_callback, h]

theorem call_complete_callback_some {c : MysqlConnection} {ccb : Nat}
    (h : c.complete_callback_ = some ccb) :
    c.call_complete_callback = [ConnEvent.complete_callback ccb c] := by
  simp only [MysqlConnection.call_complete_callback, h]

/-- One pass of the loop that stores a result set and goes on to the next. -/
theorem store_loop_cons_next (c : MysqlConnection) (s : StoreOutcome) (rest : List StoreOutcome)
    (hok : ¬ (s.result = none ∧ s.mysql_errno ≠ 0)) (hmore : s.more_results = true)
    (hnext : s.next_result_err = 0) :
    c.store_loop (s :: rest) =
      ((MysqlConnection.store_loop { c with exec_status_ := ExecStatus.NextResult } rest).1,
        c.call_result_callback s ++
          (MysqlConnection.store_loop { c with exec_status_ := ExecStatus.NextResult } rest).2) := by
  rw [MysqlConnection.store_loop]
  simp only [hok, if_false, hmore, hnext, ne_eq, not_true_eq_false, Bool.true_eq_false]
  rfl

/-- The pass of the loop that stores the last result set. -/
theorem store_loop_cons_last (c : MysqlConnection) (s : StoreOutcome) (rest : List StoreOutcome)
    (hok : ¬ (s.result = none ∧ s.mysql_errno ≠ 0)) (hmore : s.more_results = false) :
    c.store_loop (s :: rest) =
      (c.completed, c.call_result_callback s ++ c.completed.call_complete_callback) := by
  rw [MysqlConnection.store_loop]
  simp only [hok, if_false, hmore, if_true]
  rfl

/-- A pass of the loop in which `mysql_store_result` fails. -/
theorem store_loop_cons_store_error (c : MysqlConnection) (s : StoreOutcome)
    (rest : List StoreOutcome) (herr : s.result = none ∧ s.mysql_errno ≠ 0) :
    c.store_loop (s :: rest) =
      MysqlConnection.handle_error { c with exec_status_ := ExecStatus.StoreResult } := by
  rw [MysqlConnection.store_loop]
  simp only [herr, ne_eq, not_false_eq_true, and_self, if_true]

/-- A pass of the loop that stores a result set and then fails in
`mysql_next_result`. -/
theorem store_loop_cons_next_error (c : MysqlConnection) (s : StoreOutcome)
    (rest : List StoreOutcome) (hok : ¬ (s.result = none ∧ s.mysql_errno ≠ 0))
    (hmore : s.more_results = true) (hnext : s.next_result_err ≠ 0) :
    c.store_loop (s :: rest) =
      ((MysqlConnection.handle_error { c with exec_status_ := ExecStatus.NextResult }).1,
        c.call_result_callback s ++
          (MysqlConnection.handle_error { c with exec_status_ := ExecStatus.NextResult }).2) := by
  rw [MysqlConnection.store_loop]
  simp only [hok, if_false, hmore, hnext, ne_eq, not_false_eq_true, if_true, Bool.true_eq_false]
  rfl

theorem store_loop_success (rcb ccb : Nat) (last : StoreOutcome)
    (hlast : last.more_results = false)
    (hlok : ¬ (last.result = none ∧ last.mysql_errno ≠ 0)) (init : List StoreOutcome) :
    ∀ c : MysqlConnection, c.result_callback_ = some rcb → c.complete_callback_ = some ccb →
      (∀ s ∈ init, s.more_results = true ∧ s.next_result_err = 0) →
      (∀ s ∈ init, ¬ (s.result = none ∧ s.mysql_errno ≠ 0)) →
      c.store_loop (init ++ [last]) =
        (c.completed,
          (init ++ [last]).map
            (fun s => ConnEvent.result_callback rcb s.result s.affected_rows s.insert_id)
          ++ [ConnEvent.complete_callback ccb c.completed]) := by
  induction init with
  | nil =>
    intro c hr hc _ _
    rw [List.nil_append, store_loop_cons_last c last [] hlok hlast,
      call_result_callback_some hr, call_complete_callback_some (c := c.completed) hc]
    rfl
  | cons s rest ih =>
    intro c hr hc hinit hok
    have hs := hinit s (List.mem_cons_self _ _)
    have hsok := hok s (List.mem_cons_self _ _)
    have hrec := ih { c with exec_status_ := ExecStatus.NextResult } hr hc
      (fun t ht => hinit t (List.mem_cons_of_mem _ ht))
      (fun t ht => hok t (List.mem_cons_of_mem _ ht))
    rw [List.cons_append, store_loop_cons_next c s _ hsok hs.1 hs.2, hrec,
      call_result_callback_some hr]
    rfl


theorem noResultAfterError_of_no_error {ev : List ConnEvent}
    (h : ∀ e ∈ ev, e.isError = false) : NoResultAfterError ev := by
  intro l1 l2 cb heq
  have hmem : ConnEvent.ec_callback cb ∈ ev := by rw [heq]; simp
  have := h _ hmem
  simp [ConnEvent.isError] at this

theorem noResultAfterError_cons_of_tail {x : ConnEvent} {tl : List ConnEvent}
    (h : ∀ e ∈ tl, e.isResult = false) : NoResultAfterError (x :: tl) := by
  intro l1 l2 cb heq e he
  cases l1 with
  | nil =>
    simp only [List.nil_append, List.cons.injEq] at heq
    exact h e (by rw [heq.2]; exact he)
  | cons y l1 =>
    simp only [List.cons_append, List.cons.injEq] at heq
    exact h e (by rw [heq.2]; simp [he])

theorem noResultAfterError_cons {x : ConnEvent} {ev : List ConnEvent}
    (hx : x.isError = false) (h : NoResultAfterError ev) : NoResultAfterError (x :: ev) := by
  intro l1 l2 cb heq
  cases l1 with
  | nil =>
    simp only [List.nil_append, List.cons.injEq] at heq
    rw [heq.1] at hx
    simp [ConnEvent.isError] at hx
  | cons y l1 =>
    simp only [List.cons_append, List.cons.injEq] at heq
    exact h l1 l2 cb heq.2

/-- On a working connection with an error callback, `handle_error` invokes that
callback once and then at most the closed callback. -/
theorem handle_error_working (c : MysqlConnection) (ecb : Nat)
    (hw : c.is_working_ = true) (he : c.ec_callback_ = some ecb) :
    ∃ tl : List ConnEvent, c.handle_error.2 = ConnEvent.ec_callback ecb :: tl ∧
      ∀ e ∈ tl, e.isResult = false ∧ e.isError = false ∧ e.isComplete = false := by
  refine ⟨c.handle_error.1.handle_close, ?_, ?_⟩
  · simp only [MysqlConnection.handle_error, hw, if_true, he]
    rfl
  · intro e hmem
    simp only [MysqlConnection.handle_close] at hmem
    split at hmem
    · simp only [List.mem_singleton] at hmem
      subst hmem
      exact ⟨rfl, rfl, rfl⟩
    · simp at hmem

/-- The trace of the `for (;;)` loop on a working connection with both
statement callbacks installed. -/
theorem store_loop_trace (rcb ecb : Nat) (sets : List StoreOutcome) :
    ∀ c : MysqlConnection, c.is_working_ = true → c.result_callback_ = some rcb →
      c.ec_callback_ = some ecb →
      (c.store_loop sets).2.countP ConnEvent.isError = (if sets_fail sets then 1 else 0) ∧
      NoResultAfterError (c.store_loop sets).2 ∧
      (sets_fail sets = true → ∀ e ∈ (c.store_loop sets).2, e.isComplete = false) ∧
      (sets_complete sets = true → ∃ e ∈ (c.store_loop sets).2, e.isResult = true) := by
  induction sets with
  | nil =>
    intro c _ _ _
    refine ⟨rfl, noResultAfterError_of_no_error (by simp [MysqlConnection.store_loop]), ?_, ?_⟩
    · simp [sets_fail]
    · simp [sets_complete]
  | cons s rest ih =>
    intro c hw hr he
    by_cases hstore : s.result = none ∧ s.mysql_errno ≠ 0
    · obtain ⟨tl, htl, hcl⟩ := handle_error_working
        { c with exec_status_ := ExecStatus.StoreResult } ecb hw he
      rw [store_loop_cons_store_error c s rest hstore, htl]
      have hf : sets_fail (s :: rest) = true := by rw [sets_fail, if_pos hstore]
      have hc : sets_complete (s :: rest) = false := by rw [sets_complete, if_pos hstore]
      refine ⟨?_, noResultAfterError_cons_of_tail (fun e h => (hcl e h).1), ?_, ?_⟩
      · rw [hf, if_pos rfl, List.countP_cons_of_pos _ _ (by rfl)]
        rw [List.countP_eq_zero.mpr]
        intro e h
        simp [(hcl e h).2.1]
      · intro _ e hmem
        cases hmem with
        | head => rfl
        | tail _ h => exact (hcl e h).2.2
      · intro h; rw [hc] at h; cases h
    · by_cases hmore : s.more_results = false
      · rw [store_loop_cons_last c s rest hstore hmore, call_result_callback_some hr]
        have hf : sets_fail (s :: rest) = false := by
          rw [sets_fail, if_neg hstore, if_pos hmore]
        have hnoerr : ∀ e ∈ [ConnEvent.result_callback rcb s.result s.affected_rows s.insert_id] ++
            c.completed.call_complete_callback, e.isError = false := by
          intro e hmem
          simp only [List.singleton_append, List.mem_cons, MysqlConnection.call_complete_callback]
            at hmem
          rcases hmem with h | h
          · subst h; rfl
          · split at h
            · simp only [List.mem_singleton] at h; subst h; rfl
            · simp at h
        refine ⟨?_, noResultAfterError_of_no_error hnoerr, ?_, ?_⟩
        · rw [hf, List.countP_eq_zero.mpr]
          · rfl
          · intro e h; simp [hnoerr e h]
        · intro h; rw [hf] at h; cases h
        · intro _
          exact ⟨ConnEvent.result_callback rcb s.result s.affected_rows s.insert_id, by simp, rfl⟩
      · have hmore2 : s.more_results = true := by
          cases hm : s.more_results with
          | true => rfl
          | false => exact absurd hm hmore
        by_cases hnext : s.next_result_err ≠ 0
        · obtain ⟨tl, htl, hcl⟩ := handle_error_working
            { c with exec_status_ := ExecStatus.NextResult } ecb hw he
          rw [store_loop_cons_next_error c s rest hstore hmore2 hnext, htl,
            call_result_callback_some hr]
          have hf : sets_fail (s :: rest) = true := by
            rw [sets_fail, if_neg hstore, if_neg hmore, if_pos hnext]
          have hc : sets_complete (s :: rest) = false := by
            rw [sets_complete, if_neg hstore, if_neg hmore, if_pos hnext]
          refine ⟨?_, ?_, ?_, ?_⟩
          · rw [hf, if_pos rfl]
            simp only [List.singleton_append]
            rw [List.countP_cons_of_neg _ _ (by simp [ConnEvent.isError]),
              List.countP_cons_of_pos _ _ (by rfl), List.countP_eq_zero.mpr]
            intro e h
            simp [(hcl e h).2.1]
          · exact noResultAfterError_cons rfl
              (noResultAfterError_cons_of_tail (fun e h => (hcl e h).1))
          · intro _ e hmem
            simp only [List.singleton_append, List.mem_cons] at hmem
            rcases hmem with h | h | h
            · subst h; rfl
            · subst h; rfl
            · exact (hcl e h).2.2
          · intro h; rw [hc] at h; cases h
        · have hnext2 : s.next_result_err = 0 := not_not.mp hnext
          obtain ⟨h1, h2, h3, h4⟩ := ih { c with exec_status_ := ExecStatus.NextResult } hw hr he
          rw [store_loop_cons_next c s rest hstore hmore2 hnext2, call_result_callback_some hr]
          have hf : sets_fail (s :: rest) = sets_fail rest := by
            rw [sets_fail, if_neg hstore, if_neg hmore, if_neg hnext]
          refine ⟨?_, ?_, ?_, ?_⟩
          · rw [hf, ← h1]
            simp only [List.singleton_append]
            rw [List.countP_cons_of_neg _ _ (by simp [ConnEvent.isError])]
          · exact noResultAfterError_cons rfl h2
          · intro hfail e hmem
            simp only [List.singleton_append, List.mem_cons] at hmem
            rcases hmem with h | h
            · subst h; rfl
            · exact h3 (hf ▸ hfail) e h
          · intro _
            exact ⟨ConnEvent.result_callback rcb s.result s.affected_rows s.insert_id, by simp, rfl⟩


/-- What `handle_error` does on a working connection with an error callback: that
callback, then `handle_close`. -/
theorem handle_error_events (c : MysqlConnection) (ecb : Nat)
    (hw : c.is_working_ = true) (he : c.ec_callback_ = some ecb) :
    c.handle_error.2 = ConnEvent.ec_callback ecb :: c.handle_close := by
  simp only [MysqlConnection.handle_error, hw, if_true, he]
  rfl

theorem handle_close_not_result (c : MysqlConnection) :
    ∀ e ∈ c.handle_close, e.isResult = false := by
  intro e hmem
  simp only [MysqlConnection.handle_close] at hmem
  split at hmem
  · simp only [List.mem_singleton] at hmem
    subst hmem
    rfl
  · simp at hmem

/-- The shape of the trace of the `for (;;)` loop on a working connection with
both statement callbacks installed: the result callback for each stored result
set, in order, then an ending without result callbacks; when a driver step fails
the ending is the error callback followed by `handle_close`. -/
theorem store_loop_shape (rcb ecb : Nat) (tl : List ConnEvent) (sets : List StoreOutcome) :
    ∀ c : MysqlConnection, c.is_working_ = true → c.result_callback_ = some rcb →
      c.ec_callback_ = some ecb → c.handle_close = tl →
      ∃ ending : List ConnEvent,
        (c.store_loop sets).2 =
          (sets_stored sets).map
            (fun s => ConnEvent.result_callback rcb s.result s.affected_rows s.insert_id)
          ++ ending ∧
        (∀ e ∈ ending, e.isResult = false) ∧
        (sets_fail sets = true → ending = ConnEvent.ec_callback ecb :: tl) := by
  induction sets with
  | nil =>
    intro c _ _ _ _
    exact ⟨[], rfl, fun _ h => (nomatch h), fun h => by simp [sets_fail] at h⟩
  | cons s rest ih =>
    intro c hw hr he htl
    have hnr : ∀ e ∈ ConnEvent.ec_callback ecb :: tl, e.isResult = false := by
      intro e hmem
      cases hmem with
      | head => rfl
      | tail _ h => exact handle_close_not_result c e (htl ▸ h)
    by_cases hstore : s.result = none ∧ s.mysql_errno ≠ 0
    · refine ⟨ConnEvent.ec_callback ecb :: tl, ?_, hnr, fun _ => rfl⟩
      rw [store_loop_cons_store_error c s rest hstore,
        handle_error_events { c with exec_status_ := ExecStatus.StoreResult } ecb hw he,
        sets_stored, if_pos hstore]
      exact congrArg _ htl
    · by_cases hmore : s.more_results = false
      · refine ⟨c.completed.call_complete_callback, ?_, ?_, ?_⟩
        · rw [store_loop_cons_last c s rest hstore hmore, call_result_callback_some hr,
            sets_stored, if_neg hstore, if_pos hmore]
          rfl
        · intro e hmem
          simp only [MysqlConnection.call_complete_callback] at hmem
          split at hmem
          · simp only [List.mem_singleton] at hmem
            subst hmem
            rfl
          · simp at hmem
        · intro h
          rw [sets_fail, if_neg hstore, if_pos hmore] at h
          cases h
      · have hmore2 : s.more_results = true := by
          cases hm : s.more_results with
          | true => rfl
          | false => exact absurd hm hmore
        by_cases hnext : s.next_result_err ≠ 0
        · refine ⟨ConnEvent.ec_callback ecb :: tl, ?_, hnr, fun _ => rfl⟩
          rw [store_loop_cons_next_error c s rest hstore hmore2 hnext,
            handle_error_events { c with exec_status_ := ExecStatus.NextResult } ecb hw he,
            call_result_callback_some hr, sets_stored, if_neg hstore, if_neg hmore,
            if_pos hnext]
          exact congrArg _ (congrArg _ htl)
        · have hnext2 : s.next_result_err = 0 := not_not.mp hnext
          obtain ⟨ending, h1, h2, h3⟩ :=
            ih { c with exec_status_ := ExecStatus.NextResult } hw hr he htl
          refine ⟨ending, ?_, h2, ?_⟩
          · rw [store_loop_cons_next c s rest hstore hmore2 hnext2,
              call_result_callback_some hr, h1, sets_stored, if_neg hstore, if_neg hmore,
              if_neg hnext]
            rfl
          · intro h
            rw [sets_fail, if_neg hstore, if_neg hmore, if_neg hnext] at h
            exact h3 h

theorem filter_isResult_shape (rcb : Nat) (stored : List StoreOutcome)
    (ending : List ConnEvent) (h : ∀ e ∈ ending, e.isResult = false) :
    (stored.map
        (fun s => ConnEvent.result_callback rcb s.result s.affected_rows s.insert_id)
      ++ ending).filter ConnEvent.isResult =
      stored.map
        (fun s => ConnEvent.result_callback rcb s.result s.affected_rows s.insert_id) := by
  rw [List.filter_append]
  have h1 : ending.filter ConnEvent.isResult = [] := by
    rw [List.filter_eq_nil_iff]
    intro e he
    simp [h e he]
  have h2 : (stored.map
      (fun s => ConnEvent.result_callback rcb s.result s.affected_rows s.insert_id)).filter
        ConnEvent.isResult =
      stored.map
        (fun s => ConnEvent.result_callback rcb s.result s.affected_rows s.insert_id) := by
    rw [List.filter_eq_self]
    intro e he
    obtain ⟨t, _, ht⟩ := List.mem_map.mp he
    rw [← ht]
    rfl
  rw [h1, h2, List.append_nil]

theorem tags_of_neither {e : ConnEvent} (h1 : e.isError = false) (h2 : e.isResult = false)
    (P Q : Prop) : (e.isError = true → P) ∧ (e.isResult = true → Q) := by
  constructor
  · intro h; rw [h1] at h; cases h
  · intro h; rw [h2] at h; cases h

/-- Every callback the `for (;;)` loop invokes on a working connection is one the
statement was submitted with (or the complete or closed callback). -/
theorem store_loop_tags (rcb ecb : Nat) (sets : List StoreOutcome) :
    ∀ c : MysqlConnection, c.is_working_ = true → c.result_callback_ = some rcb →
      c.ec_callback_ = some ecb →
      ∀ e ∈ (c.store_loop sets).2,
        (e.isError = true → e = ConnEvent.ec_callback ecb) ∧
        (e.isResult = true →
          ∃ s ∈ sets, e = ConnEvent.result_callback rcb s.result s.affected_rows s.insert_id) := by
  induction sets with
  | nil =>
    intro c _ _ _ e hmem
    simp [MysqlConnection.store_loop] at hmem
  | cons s rest ih =>
    intro c hw hr he e hmem
    have hres : (ConnEvent.result_callback rcb s.result s.affected_rows s.insert_id).isError = true →
        ConnEvent.result_callback rcb s.result s.affected_rows s.insert_id =
          ConnEvent.ec_callback ecb := by
      intro h; cases h
    by_cases hstore : s.result = none ∧ s.mysql_errno ≠ 0
    · obtain ⟨tl, htl, hcl⟩ := handle_error_working
        { c with exec_status_ := ExecStatus.StoreResult } ecb hw he
      rw [store_loop_cons_store_error c s rest hstore, htl] at hmem
      cases hmem with
      | head => exact ⟨fun _ => rfl, fun h => nomatch h⟩
      | tail _ h =>
        exact tags_of_neither (hcl e h).2.1 (hcl e h).1 _ _
    · by_cases hmore : s.more_results = false
      · rw [store_loop_cons_last c s rest hstore hmore, call_result_callback_some hr] at hmem
        simp only [List.singleton_append, List.mem_cons, MysqlConnection.call_complete_callback]
          at hmem
        rcases hmem with h | h
        · subst h
          exact ⟨hres, fun _ => ⟨s, List.mem_cons_self _ _, rfl⟩⟩
        · split at h
          · simp only [List.mem_singleton] at h
            subst h
            exact ⟨fun h1 => (nomatch h1), fun h1 => (nomatch h1)⟩
          · simp at h
      · have hmore2 : s.more_results = true := by
          cases hm : s.more_results with
          | true => rfl
          | false => exact absurd hm hmore
        by_cases hnext : s.next_result_err ≠ 0
        · obtain ⟨tl, htl, hcl⟩ := handle_error_working
            { c with exec_status_ := ExecStatus.NextResult } ecb hw he
          rw [store_loop_cons_next_error c s rest hstore hmore2 hnext, htl,
            call_result_callback_some hr] at hmem
          simp only [List.singleton_append, List.mem_cons] at hmem
          rcases hmem with h | h | h
          · subst h
            exact ⟨hres, fun _ => ⟨s, List.mem_cons_self _ _, rfl⟩⟩
          · subst h
            exact ⟨fun _ => rfl, fun h1 => nomatch h1⟩
          · exact tags_of_neither (hcl e h).2.1 (hcl e h).1 _ _
        · have hnext2 : s.next_result_err = 0 := not_not.mp hnext
          rw [store_loop_cons_next c s rest hstore hmore2 hnext2, call_result_callback_some hr]
            at hmem
          simp only [List.singleton_append, List.mem_cons] at hmem
          rcases hmem with h | h
          · subst h
            exact ⟨hres, fun _ => ⟨s, List.mem_cons_self _ _, rfl⟩⟩
          · have := ih { c with exec_status_ := ExecStatus.NextResult } hw hr he e h
            refine ⟨this.1, fun h1 => ?_⟩
            obtain ⟨t, ht, heq⟩ := this.2 h1
            exact ⟨t, List.mem_cons_of_mem _ ht, heq⟩


theorem sets_complete_not_fail (sets : List StoreOutcome) :
    sets_complete sets = true → sets_fail sets = false := by
  induction sets with
  | nil => intro h; simp [sets_complete] at h
  | cons s rest ih =>
    intro h
    by_cases hstore : s.result = none ∧ s.mysql_errno ≠ 0
    · rw [sets_complete, if_pos hstore] at h; cases h
    · by_cases hmore : s.more_results = false
      · rw [sets_fail, if_neg hstore, if_pos hmore]
      · by_cases hnext : s.next_result_err ≠ 0
        · rw [sets_complete, if_neg hstore, if_neg hmore, if_pos hnext] at h; cases h
        · rw [sets_complete, if_neg hstore, if_neg hmore, if_neg hnext] at h
          rw [sets_fail, if_neg hstore, if_neg hmore, if_neg hnext]
          exact ih h

/-- C8, as stated, fails: the first result set of a multi-result statement is
handed to the result callback, `mysql_next_result` then fails, and the error
callback of the same submission is invoked as well. -/
theorem result_callback_then_ec_callback :
    ((pooled_connection.execute_sql "select 1; select x" (some 10) (some 11)).async_execute
      next_result_fails).2 =
      [ConnEvent.result_callback 10 (some 1) 0 0, ConnEvent.ec_callback 11,
        ConnEvent.closed_callback 2] := by
  decide

/-- C8, amended: for a statement submitted with both callbacks and any driver
outcomes, the error callback is invoked exactly once when a driver step fails and
not at all otherwise; no result callback is invoked after it; a failed statement
never reaches the complete callback; a statement that completes has had its
result callback invoked at least once and its error callback not at all; only
the submission's own error callback is invoked; the result callback is invoked
once for each result set the driver has stored, in order; and when a driver step
fails, all that is invoked is the result callback for each result set stored
before the failure, then the error callback, then `handle_close`: both callbacks
are invoked when the failure comes after a stored result set. -/
theorem async_execute_callbacks (c : MysqlConnection) (sql : String) (rcb ecb : Nat)
    (o : QueryScript) :
    ((c.execute_sql sql (some rcb) (some ecb)).async_execute o).2.countP ConnEvent.isError =
      (if o.fails then 1 else 0) ∧
    NoResultAfterError ((c.execute_sql sql (some rcb) (some ecb)).async_execute o).2 ∧
    (o.fails = true →
      ∀ e ∈ ((c.execute_sql sql (some rcb) (some ecb)).async_execute o).2,
        e.isComplete = false) ∧
    (o.completes = true →
      (∃ e ∈ ((c.execute_sql sql (some rcb) (some ecb)).async_execute o).2, e.isResult = true) ∧
      ((c.execute_sql sql (some rcb) (some ecb)).async_execute o).2.countP ConnEvent.isError
        = 0) ∧
    (∀ e ∈ ((c.execute_sql sql (some rcb) (some ecb)).async_execute o).2,
      e.isError = true → e = ConnEvent.ec_callback ecb) ∧
    ((c.execute_sql sql (some rcb) (some ecb)).async_execute o).2.filter ConnEvent.isResult =
      o.stored.map
        (fun s => ConnEvent.result_callback rcb s.result s.affected_rows s.insert_id) ∧
    (o.fails = true →
      ((c.execute_sql sql (some rcb) (some ecb)).async_execute o).2 =
        o.stored.map
          (fun s => ConnEvent.result_callback rcb s.result s.affected_rows s.insert_id)
        ++ ConnEvent.ec_callback ecb :: c.handle_close) := by
  by_cases hq : o.real_query_err ≠ 0
  · obtain ⟨tl, htl, hcl⟩ := handle_error_working
      { c.execute_sql sql (some rcb) (some ecb) with exec_status_ := ExecStatus.RealQuery }
      ecb rfl rfl
    have hev : ((c.execute_sql sql (some rcb) (some ecb)).async_execute o).2 =
        ConnEvent.ec_callback ecb :: tl := by
      rw [MysqlConnection.async_execute]
      simp only [hq, ne_eq, not_false_eq_true, if_true]
      exact htl
    have hf : o.fails = true := by rw [QueryScript.fails, if_pos hq]
    have hc : o.completes = false := by rw [QueryScript.completes, if_pos hq]
    have hs : o.stored = [] := by rw [QueryScript.stored, if_pos hq]
    have hev2 : ((c.execute_sql sql (some rcb) (some ecb)).async_execute o).2 =
        ConnEvent.ec_callback ecb :: c.handle_close := by
      rw [MysqlConnection.async_execute]
      simp only [hq, ne_eq, not_false_eq_true, if_true]
      exact handle_error_events
        { c.execute_sql sql (some rcb) (some ecb) with exec_status_ := ExecStatus.RealQuery }
        ecb rfl rfl
    have htl2 : tl = c.handle_close := by
      have := hev.symm.trans hev2
      exact (List.cons.inj this).2
    rw [hev, hf, hc, hs]
    refine ⟨?_, noResultAfterError_cons_of_tail (fun e h => (hcl e h).1), ?_, ?_, ?_, ?_,
      fun _ => by rw [htl2]; rfl⟩
    · rw [if_pos rfl, List.countP_cons_of_pos _ _ (by rfl), List.countP_eq_zero.mpr]
      intro e h
      simp [(hcl e h).2.1]
    · intro _ e hmem
      cases hmem with
      | head => rfl
      | tail _ h => exact (hcl e h).2.2
    · intro h; cases h
    · intro e hmem herr
      cases hmem with
      | head => rfl
      | tail _ h => rw [(hcl e h).2.1] at herr; cases herr
    · rw [List.filter_cons_of_neg (by simp [ConnEvent.isResult])]
      show List.filter ConnEvent.isResult tl = []
      rw [List.filter_eq_nil_iff]
      intro e h
      simp [(hcl e h).1]
  · have hev : (c.execute_sql sql (some rcb) (some ecb)).async_execute o =
        MysqlConnection.store_loop
          { c.execute_sql sql (some rcb) (some ecb) with exec_status_ := ExecStatus.RealQuery }
          o.sets := by
      rw [MysqlConnection.async_execute]
      simp only [hq, if_false]
    have hf : o.fails = sets_fail o.sets := by rw [QueryScript.fails, if_neg hq]
    have hc : o.completes = sets_complete o.sets := by rw [QueryScript.completes, if_neg hq]
    obtain ⟨h1, h2, h3, h4⟩ := store_loop_trace rcb ecb o.sets
      { c.execute_sql sql (some rcb) (some ecb) with exec_status_ := ExecStatus.RealQuery }
      rfl rfl rfl
    have h5 := store_loop_tags rcb ecb o.sets
      { c.execute_sql sql (some rcb) (some ecb) with exec_status_ := ExecStatus.RealQuery }
      rfl rfl rfl
    have hs : o.stored = sets_stored o.sets := by rw [QueryScript.stored, if_neg hq]
    obtain ⟨ending, h6, h7, h8⟩ := store_loop_shape rcb ecb c.handle_close o.sets
      { c.execute_sql sql (some rcb) (some ecb) with exec_status_ := ExecStatus.RealQuery }
      rfl rfl rfl rfl
    rw [hev, hf, hc, hs]
    refine ⟨h1, h2, h3, fun hcomp => ⟨h4 hcomp, ?_⟩, fun e hmem => (h5 e hmem).1, ?_, ?_⟩
    · rw [h1, sets_complete_not_fail _ hcomp]
      rfl
    · rw [h6]
      exact filter_isResult_shape rcb _ ending h7
    · intro hfail
      rw [h6, h8 hfail]

/-- C9: a statement with `N ≥ 1` result sets (`init ++ [last]`) and no driver
error has its result callback invoked once per result set, in order, never its
error callback, and then the complete callback once; at that call `is_working_`
is false and both statement callbacks are cleared, and that is the connection the
coroutine leaves behind. -/
theorem async_execute_success (c : MysqlConnection) (sql : String) (rcb ecb ccb : Nat)
    (init : List StoreOutcome) (last : StoreOutcome)
    (hc : c.complete_callback_ = some ccb)
    (hinit : ∀ s ∈ init, s.more_results = true ∧ s.next_result_err = 0)
    (hlast : last.more_results = false)
    (hok : ∀ s ∈ init ++ [last], ¬ (s.result = none ∧ s.mysql_errno ≠ 0)) :
    ∃ self : MysqlConnection,
      (c.execute_sql sql (some rcb) (some ecb)).async_execute
          { real_query_err := 0, sets := init ++ [last] } =
        (self,
          (init ++ [last]).map
            (fun s => ConnEvent.result_callback rcb s.result s.affected_rows s.insert_id)
          ++ [ConnEvent.complete_callback ccb self]) ∧
      self.is_working_ = false ∧ self.result_callback_ = none ∧ self.ec_callback_ = none := by
  refine ⟨(c.execute_sql sql (some rcb) (some ecb)).completed, ?_, rfl, rfl, rfl⟩
  rw [MysqlConnection.async_execute]
  simp only [ne_eq, not_true_eq_false, if_false]
  exact store_loop_success rcb ccb last hlast (hok last (by simp)) init
    { c.execute_sql sql (some rcb) (some ecb) with exec_status_ := ExecStatus.RealQuery }
    rfl hc hinit (fun s hs => hok s (by simp [hs]))

/-- C9 at a statement with two result sets on a pooled connection. -/
theorem async_execute_success_witness :
    pooled_connection.complete_callback_ = some 3 ∧
    ∃ self : MysqlConnection,
      (pooled_connection.execute_sql "select 1; update t set a = 1" (some 10)
          (some 11)).async_execute { real_query_err := 0, sets := two_result_sets } =
        (self,
          [ConnEvent.result_callback 10 (some 1) 0 0, ConnEvent.result_callback 10 none 3 4,
            ConnEvent.complete_callback 3 self]) ∧
      self.is_working_ = false ∧ self.result_callback_ = none ∧ self.ec_callback_ = none :=
  ⟨rfl,
    async_execute_success pooled_connection "select 1; update t set a = 1" 10 11 3
      [{ result := some 1, mysql_errno := 0, affected_rows := 0, insert_id := 0,
         more_results := true, next_result_err := 0 }]
      { result := none, mysql_errno := 0, affected_rows := 3, insert_id := 4,
        more_results := false, next_result_err := 0 }
      rfl (by decide) rfl (by decide)⟩

/-- C10: on a connection set up by the pool, a connect attempt that fails in the
connect phase, or in the character-set phase, ends with `conn_status_` still
`Connecting` and no callback invoked: `handle_error` does nothing but reset
`exec_status_` because `is_working_` is false. A connect phase that ends with a
null `ret` while `errno` is zero is even taken for a success. -/
theorem async_connect_failure_is_silent :
    (new_connection "").async_connect connect_refused =
      some ({ new_connection "" with conn_status_ := ConnectStatus.Connecting }, [], false) ∧
    (new_connection "utf8").async_connect charset_rejected =
      some ({ new_connection "utf8" with conn_status_ := ConnectStatus.Connecting }, [], false) ∧
    (new_connection "").async_connect connect_null_errno_zero =
      some ({ new_connection "" with conn_status_ := ConnectStatus.Ok },
        [ConnEvent.connected_callback 1], true) := by
  decide

/-! ## Claims on the result set -/

theorem same_ascii_letter_iff (x y : Nat) : same_ascii_letter x y ↔ tolower x = tolower y := by
  unfold same_ascii_letter tolower
  constructor
  · intro h
    split_ifs <;> omega
  · intro h
    split_ifs at h <;> omega

theorem eq_ignore_ascii_case_iff (a b : Bytes) :
    eq_ignore_ascii_case a b ↔ to_lower a = to_lower b := by
  unfold eq_ignore_ascii_case to_lower
  constructor
  · intro h
    induction h with
    | nil => rfl
    | cons hxy _ ih =>
      simp only [List.map_cons, List.cons.injEq]
      exact ⟨(same_ascii_letter_iff _ _).mp hxy, ih⟩
  · intro h
    induction a generalizing b with
    | nil =>
      cases b with
      | nil => exact List.Forall₂.nil
      | cons y ys => simp at h
    | cons x xs ih =>
      cases b with
      | nil => simp at h
      | cons y ys =>
        simp only [List.map_cons, List.cons.injEq] at h
        exact List.Forall₂.cons ((same_ascii_letter_iff _ _).mpr h.1) (ih ys h.2)

/-- What the loop over the fields leaves for a key: an index at or after the
start whose lowercased name is the key, or what the map held before when no
lowercased name is the key. -/
theorem fill_fields_map_lookup (names : List Bytes) :
    ∀ (i : Nat) (m : FieldNames) (k : Bytes),
      (∃ t name, names[t]? = some name ∧ to_lower name = k ∧
        fill_fields_map names i m k = some (i + t)) ∨
      ((∀ name ∈ names, to_lower name ≠ k) ∧ fill_fields_map names i m k = m k) := by
  induction names with
  | nil =>
    intro i m k
    exact Or.inr ⟨fun _ h => (nomatch h), rfl⟩
  | cons name rest ih =>
    intro i m k
    rcases ih (i + 1) (m.set (to_lower name) i) k with ⟨t, n, ht, hn, hf⟩ | ⟨hnone, hf⟩
    · refine Or.inl ⟨t + 1, n, by simpa using ht, hn, ?_⟩
      rw [fill_fields_map, hf]
      congr 1
      omega
    · by_cases hk : to_lower name = k
      · refine Or.inl ⟨0, name, by simp, hk, ?_⟩
        rw [fill_fields_map, hf]
        simp [FieldNames.set, hk]
      · refine Or.inr ⟨?_, ?_⟩
        · intro n hn
          rcases List.mem_cons.mp hn with h | h
          · rw [h]; exact hk
          · exact hnone n h
        · rw [fill_fields_map, hf]
          have : ¬ k = to_lower name := fun h => hk h.symm
          simp [FieldNames.set, this]

/-- What `columnNumber` returns on a result made from `r`, in terms of the field
names of `r`. -/
theorem columnNumber_make (r : Option MYSQL_RES) (affected_rows insert_id : Nat) (q : Bytes) :
    (∃ j name, ((r.map MYSQL_RES.fields).getD [])[j]? = some name ∧
      to_lower name = to_lower q ∧
      (MysqlResult.make r affected_rows insert_id).columnNumber q = j) ∨
    ((∀ name ∈ (r.map MYSQL_RES.fields).getD [], to_lower name ≠ to_lower q) ∧
      (MysqlResult.make r affected_rows insert_id).columnNumber q = not_found) := by
  cases r with
  | none => exact Or.inr ⟨fun _ h => by simp at h, rfl⟩
  | some res =>
    by_cases hpos : res.fields.length > 0
    · rcases fill_fields_map_lookup res.fields 0 (fun _ => none) (to_lower q) with
        ⟨t, n, ht, hn, hf⟩ | ⟨hnone, hf⟩
      · refine Or.inl ⟨t, n, by simpa using ht, hn, ?_⟩
        simp only [MysqlResult.columnNumber, MysqlResult.make, hpos, if_true, Option.map_some',
          Option.getD_some, List.take_length, hf]
        omega
      · refine Or.inr ⟨by simpa using hnone, ?_⟩
        simp only [MysqlResult.columnNumber, MysqlResult.make, hpos, if_true, Option.map_some',
          Option.getD_some, List.take_length, hf]
    · have hnil : res.fields = [] := by
        cases hf : res.fields with
        | nil => rfl
        | cons x xs => rw [hf] at hpos; simp at hpos
      refine Or.inr ⟨by simp [hnil], ?_⟩
      simp only [MysqlResult.columnNumber, MysqlResult.make, hpos, if_false]

/-- C15: `columnNumber` returns the same answer for two names that are equal up
to ASCII letter case; the answer is the index of a column whose name equals the
query ignoring case when there is such a column, and the not-found value when
there is none or the result has no columns. -/
theorem columnNumber_ignores_case (r : Option MYSQL_RES) (affected_rows insert_id : Nat)
    (a b : Bytes) (h : eq_ignore_ascii_case a b) :
    (MysqlResult.make r affected_rows insert_id).columnNumber a =
      (MysqlResult.make r affected_rows insert_id).columnNumber b ∧
    ((∃ name ∈ (r.map MYSQL_RES.fields).getD [], eq_ignore_ascii_case name a) →
      ∃ j name, ((r.map MYSQL_RES.fields).getD [])[j]? = some name ∧
        eq_ignore_ascii_case name a ∧
        (MysqlResult.make r affected_rows insert_id).columnNumber a = j) ∧
    ((¬ ∃ name ∈ (r.map MYSQL_RES.fields).getD [], eq_ignore_ascii_case name a) →
      (MysqlResult.make r affected_rows insert_id).columnNumber a = not_found) := by
  have hab : to_lower a = to_lower b := (eq_ignore_ascii_case_iff a b).mp h
  refine ⟨?_, ?_, ?_⟩
  · simp only [MysqlResult.columnNumber, hab]
  · rintro ⟨name, hmem, hname⟩
    rcases columnNumber_make r affected_rows insert_id a with ⟨j, n, hj, hn, hc⟩ | ⟨hnone, _⟩
    · exact ⟨j, n, hj, (eq_ignore_ascii_case_iff n a).mpr hn, hc⟩
    · exact absurd ((eq_ignore_ascii_case_iff name a).mp hname) (hnone name hmem)
  · intro hno
    rcases columnNumber_make r affected_rows insert_id a with ⟨j, n, hj, hn, _⟩ | ⟨_, hc⟩
    · exact absurd ⟨n, List.getElem?_mem hj, (eq_ignore_ascii_case_iff n a).mpr hn⟩ hno
    · exact hc

/-- C15 on the sample result: `NAME` and `name` both give column 1. -/
theorem columnNumber_ignores_case_witness :
    eq_ignore_ascii_case [78, 65, 77, 69] [110, 97, 109, 101] ∧
    (MysqlResult.make (some sample_res) 0 0).columnNumber [78, 65, 77, 69] =
      (MysqlResult.make (some sample_res) 0 0).columnNumber [110, 97, 109, 101] :=
  have h : eq_ignore_ascii_case [78, 65, 77, 69] [110, 97, 109, 101] :=
    (eq_ignore_ascii_case_iff _ _).mpr (by decide)
  ⟨h, (columnNumber_ignores_case (some sample_res) 0 0 _ _ h).1⟩

/-- C16, as stated, fails: on a result with two columns and no row, an access
at row 5, column 7 is not rejected; `getValue` returns the null pointer and
`getLength` returns 0. -/
theorem getValue_empty_result_not_rejected :
    (MysqlResult.make (some empty_res) 0 0).getValue 5 7 = Checked.ok none ∧
    (MysqlResult.make (some empty_res) 0 0).getLength 5 7 = Checked.ok 0 ∧
    (MysqlResult.make (some empty_res) 0 0).isNull 5 7 = Checked.ok true := by
  decide

/-- C16, amended: on a result made from a driver result with `R` rows and `C`
columns, for `row < R` and `col < C`, `getValue` returns the cell the driver
delivered, `isNull` says whether that cell is the null pointer and `getLength`
returns the length the driver reported; when `R > 0` and `C > 0`, an access with
`row ≥ R` or `col ≥ C` fails the assertion; when `R = 0` or `C = 0`, every access
returns the null pointer, length 0, without a bounds check. -/
theorem getValue_getLength (res : MYSQL_RES) (affected_rows insert_id row col : Nat) :
    (∀ (r : List (Option Bytes) × List Nat) (cell : Option Bytes) (len : Nat),
      res.rows[row]? = some r → col < res.fields.length →
      r.1[col]? = some cell → r.2[col]? = some len →
      (MysqlResult.make (some res) affected_rows insert_id).getValue row col = Checked.ok cell ∧
      (MysqlResult.make (some res) affected_rows insert_id).isNull row col =
        Checked.ok cell.isNone ∧
      (MysqlResult.make (some res) affected_rows insert_id).getLength row col =
        Checked.ok len) ∧
    (0 < res.rows.length → 0 < res.fields.length →
      (res.rows.length ≤ row ∨ res.fields.length ≤ col) →
      (MysqlResult.make (some res) affected_rows insert_id).getValue row col =
        Checked.assert_failed ∧
      (MysqlResult.make (some res) affected_rows insert_id).isNull row col =
        Checked.assert_failed ∧
      (MysqlResult.make (some res) affected_rows insert_id).getLength row col =
        Checked.assert_failed) ∧
    ((res.rows.length = 0 ∨ res.fields.length = 0) →
      (MysqlResult.make (some res) affected_rows insert_id).getValue row col = Checked.ok none ∧
      (MysqlResult.make (some res) affected_rows insert_id).isNull row col = Checked.ok true ∧
      (MysqlResult.make (some res) affected_rows insert_id).getLength row col = Checked.ok 0) := by
  refine ⟨?_, ?_, ?_⟩
  · intro r cell len hrow hcol hcell hlen
    have hR : row < res.rows.length := by
      rcases List.getElem?_eq_some_iff.mp hrow with ⟨h, _⟩
      exact h
    have hRpos : res.rows.length > 0 := by omega
    have hCpos : res.fields.length > 0 := by omega
    have hne : ¬ (res.rows.length = 0 ∨ res.fields.length = 0) := by omega
    have hv : (MysqlResult.make (some res) affected_rows insert_id).getValue row col =
        Checked.ok cell := by
      simp only [MysqlResult.getValue, MysqlResult.make, hne, if_false, hR, hcol,
        not_true_eq_false, hRpos, if_true, Option.map_some', Option.getD_some]
      simp [List.getD_eq_getElem?_getD, hrow, hcell]
    refine ⟨hv, ?_, ?_⟩
    · simp only [MysqlResult.isNull, hv]
    · simp only [MysqlResult.getLength, MysqlResult.make, hne, if_false, hR, hcol,
        not_true_eq_false, hRpos, if_true, Option.map_some', Option.getD_some]
      have hlt : col < r.2.length := by
        rcases List.getElem?_eq_some_iff.mp hlen with ⟨h, _⟩
        exact h
      simp [List.getD_eq_getElem?_getD, hrow, List.getElem?_take, hcol, hlen]
  · intro hR hC hout
    have hne : ¬ (res.rows.length = 0 ∨ res.fields.length = 0) := by omega
    have hv : (MysqlResult.make (some res) affected_rows insert_id).getValue row col =
        Checked.assert_failed := by
      simp only [MysqlResult.getValue, MysqlResult.make, hne, if_false]
      by_cases h1 : row < res.rows.length
      · have h2 : ¬ col < res.fields.length := by omega
        simp [h1, h2]
      · simp [h1]
    refine ⟨hv, ?_, ?_⟩
    · simp only [MysqlResult.isNull, hv]
    · simp only [MysqlResult.getLength, MysqlResult.make, hne, if_false]
      by_cases h1 : row < res.rows.length
      · have h2 : ¬ col < res.fields.length := by omega
        simp [h1, h2]
      · simp [h1]
  · intro hzero
    have hv : (MysqlResult.make (some res) affected_rows insert_id).getValue row col =
        Checked.ok none := by
      simp only [MysqlResult.getValue, MysqlResult.make, hzero, if_true]
    refine ⟨hv, ?_, ?_⟩
    · simp only [MysqlResult.isNull, hv]; rfl
    · simp only [MysqlResult.getLength, MysqlResult.make, hzero, if_true]

/-! ## Claims on the pool, continued -/

/-- C17: `handle_new_task(conn)` takes one of four decisions, in this order: the
oldest queued statement is removed and dispatched to `conn`, the transaction
queue and the three sets untouched; else the oldest queued transaction callback
is removed and a transaction is begun on `conn`; else, when the population is
above `min_size_`, `conn` is closed and is then in none of the three sets; else
`conn` is moved from busy to idle and the population is unchanged. -/
theorem handle_new_task_decisions (p : MysqlConnectionPool) (conn : ConnId) :
    (∀ cmd rest, p.sqlCmd_buffer_ = cmd :: rest →
      handle_new_task p conn =
        ({ p with sqlCmd_buffer_ := rest },
          [Effect.execute_sql conn cmd.sql_ cmd.result_callback_ cmd.exception_callback_])) ∧
    (∀ cb rest, p.sqlCmd_buffer_ = [] → p.trans_callbacks_ = some cb :: rest →
      handle_new_task p conn =
        ({ p with trans_callbacks_ := rest }, [Effect.begin_trans conn (some cb)])) ∧
    (p.sqlCmd_buffer_ = [] → p.trans_callbacks_ = [] → p.connections_.card > p.min_size_ →
      handle_new_task p conn = (closed_callback p conn, [Effect.handle_close conn]) ∧
      conn ∉ (handle_new_task p conn).1.connections_ ∧
      conn ∉ (handle_new_task p conn).1.ready_connections_ ∧
      conn ∉ (handle_new_task p conn).1.busy_connections_) ∧
    (p.sqlCmd_buffer_ = [] → p.trans_callbacks_ = [] → ¬ p.connections_.card > p.min_size_ →
      handle_new_task p conn =
        ({ p with
            ready_connections_ := insert conn p.ready_connections_,
            busy_connections_ := p.busy_connections_.erase conn }, [])) := by
  refine ⟨?_, ?_, ?_, ?_⟩
  · intro cmd rest h
    simp only [handle_new_task, h]
  · intro cb rest h1 h2
    simp only [handle_new_task, h1, h2]
  · intro h1 h2 h3
    have h : handle_new_task p conn = (closed_callback p conn, [Effect.handle_close conn]) := by
      simp only [handle_new_task, h1, h2, h3, if_true]
    rw [h]
    simp [closed_callback]
  · intro h1 h2 h3
    simp only [handle_new_task, h1, h2, h3, if_false]

/-- C20: when the connection is no longer in `connections_`, the release
callback of a transaction bound to it changes nothing in the pool and does
nothing to the outside: it posts no task and dispatches nothing; the connection
is not put back into idle or busy. -/
theorem release_callback_of_removed (p : MysqlConnectionPool) (conn : ConnId)
    (status : ConnectStatus) (h : conn ∉ p.connections_) :
    release_callback p conn status = (p, []) := by
  unfold release_callback
  split
  · rfl
  · simp only [h, not_false_eq_true, if_true]

/-- C20 on a pool that has closed its only connection. -/
theorem release_callback_of_removed_witness :
    (1 : ConnId) ∉ (closed_callback all_busy_pool 1).connections_ ∧
    release_callback (closed_callback all_busy_pool 1) 1 ConnectStatus.Ok =
      (closed_callback all_busy_pool 1, []) :=
  ⟨by decide, release_callback_of_removed (closed_callback all_busy_pool 1) 1 ConnectStatus.Ok
    (by decide)⟩

/-! ## Claims on the transaction -/

/-- On a finished transaction, `execute_sql(sql, rcb, ecb)` with a callable `ecb`
calls `ecb` once, within the call, with `rolled_back_error`, and does nothing
else. -/
theorem execute_sql_finished_branch (w : TransWorld) (sql : String)
    (rcb : ResultPtrCallback) (ecb : Nat) (h : w.trans.is_commited_rollback = true) :
    w.execute_sql sql rcb (some ecb) =
      { w with log := w.log ++ [TransEvent.ec_callback ecb rolled_back_error] } := by
  simp only [TransWorld.execute_sql, h, Bool.true_eq_false, if_false]

/-- C11: BEGIN fails while the requester holds the transaction, which is thereby
finished. `execute_sql(sql, rcb, ecb)` on it calls `ecb` once, within the call,
and does nothing else: `rcb` is not called, nothing is dispatched or posted, and
the transaction is as before. But the exception handed to `ecb` is the plain
`std::exception` that `std::exception(std::runtime_error("transaction been
rollback"))` makes: its `what()` is the fixed text of the library, not the text
written in the source, and it is the same value that `handle_error` hands to an
error callback for a driver error. -/
theorem execute_sql_on_finished_hands_plain_exception :
    ∃ w : TransWorld, fresh_world.run? begin_fails_steps = some w ∧
      w.trans.is_commited_rollback = true ∧ w.client_holds = true ∧
      w.execute_sql "select 1" (some 20) (some 21) =
        { w with log := w.log ++ [TransEvent.ec_callback 21 ExceptionObject.exception] } ∧
      rolled_back_error.what = ErrorText.literal "std::exception" ∧
      rolled_back_error.what ≠ ErrorText.literal "transaction been rollback" ∧
      rolled_back_error = driver_error := by
  refine ⟨_, rfl, ?_⟩
  decide

/-- C18: the requester submits a statement while BEGIN is in flight, so the
statement is buffered; BEGIN then fails, which marks the transaction finished:
it is finished with a non-empty buffer. `handle_error` does not call the
complete callback, so `execute_new_task` does not run: the error callback of the
buffered statement is not called, the buffer is not emptied, `is_working_` stays
true and the release callback is not called. The requester lets go of the
transaction; the buffered statement still holds it, so it is not destroyed
either, and nothing is left to happen. -/
theorem finished_buffer_is_never_drained :
    ∃ w : TransWorld, fresh_world.run? begin_fails_with_queued_steps = some w ∧
      w.log =
        [TransEvent.execute_sql "begin" false, TransEvent.deliver 7 true "begin" true,
         TransEvent.closed_callback] ∧
      w.trans.is_commited_rollback = true ∧
      w.trans.sqlCmdBuffer_ =
        [{ sql_ := "insert into t values (1)", result_callback_ := some (CmdCallback.user 1),
           ec_callback_ := some (CmdCallback.user 2), is_rollback_cmd_ := false }] ∧
      w.trans.is_working_ = true ∧ w.trans.usedup_callback_ = some 9 ∧
      w.destroyed = false ∧ w.client_holds = false ∧ w.posted = [] ∧
      w.conn.running = false ∧ ∀ st, w.step? st = none := by
  refine ⟨_, rfl, by decide, by decide, by decide, by decide, by decide, by decide,
    by decide, by decide, by decide, ?_⟩
  intro st
  cases st <;> rfl

/-- C13: BEGIN succeeds and the first statement of the transaction fails. Its
error callback is called once and `roll_back` posts its task, but that task
finds `is_working_` still set (the complete callback is not called after an
error) and only puts the ROLLBACK into the buffer: it is never dispatched,
`is_commited_rollback` stays false, and the transaction, kept alive by its own
buffer, is never destroyed, so no commit callback is called; no step is left. -/
theorem rollback_is_never_dispatched :
    ∃ w : TransWorld, fresh_world.run? failing_statement_steps = some w ∧
      w.log =
        [TransEvent.execute_sql "begin" false, TransEvent.deliver 7 true "begin" true,
         TransEvent.execute_sql "insert into t values (1)" false,
         TransEvent.ec_callback 2 driver_error, TransEvent.closed_callback] ∧
      w.trans.sqlCmdBuffer_ =
        [{ sql_ := "rollback", result_callback_ := some CmdCallback.mark_finished,
           ec_callback_ := some CmdCallback.mark_finished, is_rollback_cmd_ := true }] ∧
      w.trans.is_commited_rollback = false ∧ w.trans.is_working_ = true ∧
      w.destroyed = false ∧ w.client_holds = false ∧ w.posted = [] ∧
      w.conn.running = false := by
  refine ⟨_, rfl, ?_⟩
  decide

/-- C19, as stated, fails: a transaction is destroyed unfinished, its COMMIT is
dispatched and fails; the commit callback is called with `false` and the closed
callback of the connection is called, but the release callback 9 is not. -/
theorem failed_commit_skips_release :
    ∃ w : TransWorld,
      fresh_world.run? (begin_and_drop_steps ++
        [TransStep.run_task, TransStep.run_task,
         TransStep.finish (StatementOutcome.failed 0)]) = some w ∧
      w.log =
        [TransEvent.execute_sql "begin" false, TransEvent.deliver 7 true "begin" true,
         TransEvent.destructor, TransEvent.execute_sql "commit" false,
         TransEvent.commit_callback 5 false, TransEvent.closed_callback] ∧
      w.posted = [] ∧ w.conn.running = false ∧ w.client_holds = false := by
  refine ⟨_, rfl, ?_⟩
  decide

/-- C19, amended: when a transaction that is not finished is destroyed, one
COMMIT is dispatched on its connection. When the COMMIT completes, the commit
callback is called with `true` and then the release callback, once. When it
fails, the commit callback is called with `false` and then the closed callback
of the connection; the release callback is not called. -/
theorem destructor_commits (w : TransWorld) (commitCb ucb : Nat)
    (hf : w.trans.is_commited_rollback = false) (hp : w.posted = [])
    (hc : w.trans.commit_callback_ = some commitCb)
    (hu : w.trans.usedup_callback_ = some ucb) :
    (w.destructor.run? [TransStep.run_task, TransStep.run_task,
        TransStep.finish (StatementOutcome.completed 0)]).map TransWorld.log =
      some (w.log ++
        [TransEvent.destructor, TransEvent.execute_sql "commit" w.conn.is_working_,
         TransEvent.commit_callback commitCb true, TransEvent.usedup_callback ucb]) ∧
    (w.destructor.run? [TransStep.run_task, TransStep.run_task,
        TransStep.finish (StatementOutcome.failed 0)]).map TransWorld.log =
      some (w.log ++
        [TransEvent.destructor, TransEvent.execute_sql "commit" w.conn.is_working_,
         TransEvent.commit_callback commitCb false, TransEvent.closed_callback]) := by
  constructor <;>
  simp [TransWorld.run?, TransWorld.step?, TransWorld.destructor, hf, hp, hc, hu,
    TransWorld.run_task, TransWorld.conn_execute_sql, TransWorld.collect, TransWorld.finish,
    TransWorld.call_results, TransWorld.call_result_callback, TransWorld.clear_callbacks,
    TransWorld.call_complete_callback, TransWorld.call_ec_callback]

/-- C19 amended, on the transaction whose BEGIN has completed and whose commit
callback is 5, at the moment the requester lets go of it. -/
theorem destructor_commits_witness :
    idle_world.trans.is_commited_rollback = false ∧ idle_world.posted = [] ∧
    idle_world.trans.commit_callback_ = some 5 ∧
    idle_world.trans.usedup_callback_ = some 9 ∧
    (idle_world.destructor.run? [TransStep.run_task, TransStep.run_task,
        TransStep.finish (StatementOutcome.completed 0)]).map TransWorld.log =
      some
        [TransEvent.execute_sql "begin" false, TransEvent.deliver 7 true "begin" true,
         TransEvent.destructor, TransEvent.execute_sql "commit" false,
         TransEvent.commit_callback 5 true, TransEvent.usedup_callback 9] :=
  ⟨rfl, rfl, rfl, rfl, (destructor_commits idle_world 5 9 rfl rfl rfl rfl).1⟩

/-- C14: `begin_trans` posts the task of `do_begin` before the delivery of the
transaction. Before the delivery only the reactor can act; it runs the task of
`do_begin`, which sets `is_working_` and hands BEGIN to the connection, and then
the delivery, at which the transaction's `is_working_` is true and the
connection's statement is BEGIN. A statement submitted at that moment goes into
the buffer and is not dispatched. -/
theorem begin_is_dispatched_before_delivery (last_sql : String) (cb ucb : Nat) :
    (begin_trans (BoundConnection.idle last_sql) cb ucb).posted =
      [ReactorTask.begin, ReactorTask.deliver cb] ∧
    (∀ st, st ≠ TransStep.run_task →
      (begin_trans (BoundConnection.idle last_sql) cb ucb).step? st = none) ∧
    (∃ w1 w2 : TransWorld,
      (begin_trans (BoundConnection.idle last_sql) cb ucb).step? TransStep.run_task = some w1 ∧
      (∀ st, st ≠ TransStep.run_task → w1.step? st = none) ∧
      w1.step? TransStep.run_task = some w2 ∧
      w2.log =
        [TransEvent.execute_sql "begin" false, TransEvent.deliver cb true "begin" true] ∧
      w2.trans.is_working_ = true ∧ w2.conn.sql_ = "begin" ∧ w2.conn.is_working_ = true ∧
      w2.conn.running = false ∧ w2.posted = [ReactorTask.async_execute] ∧
      ∀ sql rcb ecb,
        w2.execute_sql sql rcb ecb =
          { w2 with trans := { w2.trans with
              sqlCmdBuffer_ :=
                [{ sql_ := sql, result_callback_ := rcb.map CmdCallback.user,
                   ec_callback_ := ecb.map CmdCallback.user, is_rollback_cmd_ := false }] } }) := by
  refine ⟨rfl, ?_, ?_⟩
  · intro st hst
    cases st <;> first | rfl | exact absurd rfl hst
  · refine ⟨_, _, rfl, ?_, rfl, rfl, rfl, rfl, rfl, rfl, rfl, ?_⟩
    · intro st hst
      cases st <;> first | rfl | exact absurd rfl hst
    · intro sql rcb ecb
      rfl

/-! ## A transaction whose statements all succeed -/

theorem last_sql_of_append (done : List SqlCmd) (cur : SqlCmd) :
    last_sql_of (done ++ [cur]) = cur.sql_ := by
  simp [last_sql_of]

/-- What the loop over the fields leaves for a key: the last index at or after
the start whose lowercased name is the key, or what the map held before when no
lowercased name is the key. -/
theorem fill_fields_map_last (names : List Bytes) :
    ∀ (i : Nat) (m : FieldNames) (k : Bytes),
      (∃ t name, names[t]? = some name ∧ to_lower name = k ∧
        (∀ t1 name1, names[t1]? = some name1 → to_lower name1 = k → t1 ≤ t) ∧
        fill_fields_map names i m k = some (i + t)) ∨
      ((∀ name ∈ names, to_lower name ≠ k) ∧ fill_fields_map names i m k = m k) := by
  induction names with
  | nil =>
    intro i m k
    exact Or.inr ⟨fun _ h => (nomatch h), rfl⟩
  | cons name rest ih =>
    intro i m k
    rcases ih (i + 1) (m.set (to_lower name) i) k with ⟨t, n, ht, hn, hmax, hf⟩ | ⟨hnone, hf⟩
    · refine Or.inl ⟨t + 1, n, by simpa using ht, hn, ?_, ?_⟩
      · intro t1 name1 h1 h2
        cases t1 with
        | zero => omega
        | succ t2 =>
          have := hmax t2 name1 (by simpa using h1) h2
          omega
      · rw [fill_fields_map, hf]
        congr 1
        omega
    · by_cases hk : to_lower name = k
      · refine Or.inl ⟨0, name, by simp, hk, ?_, ?_⟩
        · intro t1 name1 h1 h2
          cases t1 with
          | zero => exact Nat.le_refl 0
          | succ t2 =>
            have hmem : name1 ∈ rest := List.getElem?_mem (by simpa using h1)
            exact absurd h2 (hnone name1 hmem)
        · rw [fill_fields_map, hf]
          simp [FieldNames.set, hk]
      · refine Or.inr ⟨?_, ?_⟩
        · intro n hn
          rcases List.mem_cons.mp hn with h | h
          · rw [h]; exact hk
          · exact hnone n h
        · rw [fill_fields_map, hf]
          have : ¬ k = to_lower name := fun h => hk h.symm
          simp [FieldNames.set, this]

/-- What `columnNumber` returns on a result made from `r`, in terms of the field
names of `r`: the last index whose lowercased name is the lowercased query. -/
theorem columnNumber_make_last (r : Option MYSQL_RES) (affected_rows insert_id : Nat)
    (q : Bytes) :
    (∃ j name, ((r.map MYSQL_RES.fields).getD [])[j]? = some name ∧
      to_lower name = to_lower q ∧
      (∀ k nk, ((r.map MYSQL_RES.fields).getD [])[k]? = some nk →
        to_lower nk = to_lower q → k ≤ j) ∧
      (MysqlResult.make r affected_rows insert_id).columnNumber q = j) ∨
    ((∀ name ∈ (r.map MYSQL_RES.fields).getD [], to_lower name ≠ to_lower q) ∧
      (MysqlResult.make r affected_rows insert_id).columnNumber q = not_found) := by
  cases r with
  | none => exact Or.inr ⟨fun _ h => by simp at h, rfl⟩
  | some res =>
    by_cases hpos : res.fields.length > 0
    · rcases fill_fields_map_last res.fields 0 (fun _ => none) (to_lower q) with
        ⟨t, n, ht, hn, hmax, hf⟩ | ⟨hnone, hf⟩
      · refine Or.inl ⟨t, n, by simpa using ht, hn, by simpa using hmax, ?_⟩
        simp only [MysqlResult.columnNumber, MysqlResult.make, hpos, if_true, Option.map_some',
          Option.getD_some, List.take_length, hf]
        omega
      · refine Or.inr ⟨by simpa using hnone, ?_⟩
        simp only [MysqlResult.columnNumber, MysqlResult.make, hpos, if_true, Option.map_some',
          Option.getD_some, List.take_length, hf]
    · have hnil : res.fields = [] := by
        cases hf : res.fields with
        | nil => rfl
        | cons x xs => rw [hf] at hpos; simp at hpos
      refine Or.inr ⟨by simp [hnil], ?_⟩
      simp only [MysqlResult.columnNumber, MysqlResult.make, hpos, if_false]

/-- The number of columns of a result made from `r` is the number of field names
of `r`. -/
theorem columns_make (r : Option MYSQL_RES) (affected_rows insert_id : Nat) :
    (MysqlResult.make r affected_rows insert_id).columns =
      ((r.map MYSQL_RES.fields).getD []).length := by
  cases r <;> rfl

/-- On a result made from `r`, `columnName` returns the field name of `r` at an
index in range and fails its assertion otherwise. -/
theorem columnName_make (r : Option MYSQL_RES) (affected_rows insert_id i : Nat)
    (name : Bytes) :
    (MysqlResult.make r affected_rows insert_id).columnName i = Checked.ok name ↔
      ((r.map MYSQL_RES.fields).getD [])[i]? = some name := by
  cases r with
  | none => simp [MysqlResult.columnName, MysqlResult.make]
  | some res =>
    by_cases hi : i < res.fields.length
    · simp [MysqlResult.columnName, MysqlResult.make, hi, List.getD_eq_getElem?_getD,
        List.getElem?_eq_getElem hi]
    · have hnone : res.fields[i]? = none := List.getElem?_eq_none (by omega)
      simp [MysqlResult.columnName, MysqlResult.make, hi, hnone]

/-- C21: on every result whose number of columns fits the `unsigned long` it is
stored in, for every column index `i` below the number of columns,
`columnNumber(columnName(i))` is the largest column index whose name
equals the name of column `i` ignoring ASCII case (it is an index in range, at
or after `i`, its name equals that of column `i` ignoring case, and no later
column has such a name). Hence the round trip returns `i` for every column
exactly when no two columns have names equal ignoring case; and a column that
has a later column with a name equal ignoring case is returned by
`columnNumber` for no query at all. -/
theorem columnNumber_of_columnName (r : Option MYSQL_RES) (affected_rows insert_id : Nat)
    (hn : (MysqlResult.make r affected_rows insert_id).columns < 2 ^ 64) :
    (∀ i, i < (MysqlResult.make r affected_rows insert_id).columns →
      ∃ name j nj,
        (MysqlResult.make r affected_rows insert_id).columnName i = Checked.ok name ∧
        (MysqlResult.make r affected_rows insert_id).columnNumber name = j ∧
        i ≤ j ∧ j < (MysqlResult.make r affected_rows insert_id).columns ∧
        (MysqlResult.make r affected_rows insert_id).columnName j = Checked.ok nj ∧
        eq_ignore_ascii_case nj name ∧
        ∀ k nk, (MysqlResult.make r affected_rows insert_id).columnName k = Checked.ok nk →
          eq_ignore_ascii_case nk name → k ≤ j) ∧
    ((∀ i, i < (MysqlResult.make r affected_rows insert_id).columns →
        ∃ name, (MysqlResult.make r affected_rows insert_id).columnName i = Checked.ok name ∧
          (MysqlResult.make r affected_rows insert_id).columnNumber name = i) ↔
      (∀ i j ni nj, i < j →
        (MysqlResult.make r affected_rows insert_id).columnName i = Checked.ok ni →
        (MysqlResult.make r affected_rows insert_id).columnName j = Checked.ok nj →
        ¬ eq_ignore_ascii_case ni nj)) ∧
    (∀ i j ni nj, i < j →
      (MysqlResult.make r affected_rows insert_id).columnName i = Checked.ok ni →
      (MysqlResult.make r affected_rows insert_id).columnName j = Checked.ok nj →
      eq_ignore_ascii_case ni nj →
      ∀ q, (MysqlResult.make r affected_rows insert_id).columnNumber q ≠ i) := by
  have hlen := columns_make r affected_rows insert_id
  have hname := columnName_make r affected_rows insert_id
  have hnum := columnNumber_make_last r affected_rows insert_id
  rw [hlen] at hn
  simp only [hlen, hname]
  generalize (r.map MYSQL_RES.fields).getD [] = F at hn hnum ⊢
  generalize MysqlResult.make r affected_rows insert_id = m at hnum ⊢
  have part1 : ∀ i, i < F.length →
      ∃ name j nj, F[i]? = some name ∧ m.columnNumber name = j ∧ i ≤ j ∧ j < F.length ∧
        F[j]? = some nj ∧ eq_ignore_ascii_case nj name ∧
        ∀ k nk, F[k]? = some nk → eq_ignore_ascii_case nk name → k ≤ j := by
    intro i hi
    have hin : F[i]? = some F[i] := List.getElem?_eq_getElem hi
    rcases hnum F[i] with ⟨j, nj, hj, hlow, hmax, hc⟩ | ⟨hnone, _⟩
    · refine ⟨F[i], j, nj, hin, hc, hmax i F[i] hin rfl, ?_, hj,
        (eq_ignore_ascii_case_iff _ _).mpr hlow, ?_⟩
      · exact (List.getElem?_eq_some_iff.mp hj).1
      · intro k nk hk hknk
        exact hmax k nk hk ((eq_ignore_ascii_case_iff _ _).mp hknk)
    · exact absurd rfl (hnone F[i] (List.getElem_mem hi))
  refine ⟨part1, ⟨?_, ?_⟩, ?_⟩
  · intro hround i j ni nj hij hi hj heq
    have hilt : i < F.length := (List.getElem?_eq_some_iff.mp hi).1
    obtain ⟨name, hname1, hc⟩ := hround i hilt
    obtain ⟨name2, j2, nj2, hname2, hc2, _, _, _, _, hmax⟩ := part1 i hilt
    have e1 : name = ni := Option.some.inj (hname1.symm.trans hi)
    have e2 : name2 = ni := Option.some.inj (hname2.symm.trans hi)
    subst e1
    subst e2
    have hle : j ≤ j2 :=
      hmax j nj hj ((eq_ignore_ascii_case_iff _ _).mpr
        ((eq_ignore_ascii_case_iff _ _).mp heq).symm)
    omega
  · intro hdistinct i hi
    obtain ⟨name, j, nj, hname1, hc, hij, _, hj, heq, _⟩ := part1 i hi
    refine ⟨name, hname1, ?_⟩
    rcases Nat.lt_or_ge i j with hlt | hge
    · exact absurd ((eq_ignore_ascii_case_iff _ _).mpr
        ((eq_ignore_ascii_case_iff _ _).mp heq).symm) (hdistinct i j name nj hlt hname1 hj)
    · omega
  · intro i j ni nj hij hi hj heq q hq
    have hjlt : j < F.length := (List.getElem?_eq_some_iff.mp hj).1
    rcases hnum q with ⟨j2, nj2, hj2, hlow, hmax, hc⟩ | ⟨_, hc⟩
    · have e : j2 = i := hc.symm.trans hq
      subst e
      have e2 : nj2 = ni := Option.some.inj (hj2.symm.trans hi)
      subst e2
      have hle : j ≤ j2 :=
        hmax j nj hj (((eq_ignore_ascii_case_iff _ _).mp heq).symm.trans hlow)
      omega
    · rw [hc] at hq
      unfold not_found at hq
      omega

/-- C21 on the result with columns `Id`, `name`, `ID`: the name of column 0
leads to column 2, and no name leads to column 0. -/
theorem columnNumber_of_columnName_witness :
    (MysqlResult.make (some duplicate_res) 0 0).columns < 2 ^ 64 ∧
    (MysqlResult.make (some duplicate_res) 0 0).columnName 0 = Checked.ok [73, 100] ∧
    (MysqlResult.make (some duplicate_res) 0 0).columnNumber [73, 100] = 2 ∧
    ∀ q, (MysqlResult.make (some duplicate_res) 0 0).columnNumber q ≠ 0 :=
  ⟨by decide, rfl, by decide,
    (columnNumber_of_columnName (some duplicate_res) 0 0 (by decide)).2.2 0 2
      [73, 100] [73, 68] (by decide) rfl rfl
      ((eq_ignore_ascii_case_iff _ _).mpr (by decide))⟩

end db
